import Mathlib

/-!
Verification of the event-authorization, membership-join, UIA and federation
backfill logic of a Matrix-style homeserver, shallowly embedded from the Rust
source (`core/matrix/state_res/event_auth.rs`, `api/client/membership/join.rs`,
`service/uiaa/mod.rs`, `api/server/get_missing_events.rs`).

Machine integers (`ruma::Int`, a bounded js-int) are modelled as `Int`; the
code under study performs no arithmetic on them, only comparisons, so
boundedness is irrelevant.  JSON contents are modelled as structured records:
a field that the source reads through serde deserialization becomes an
`Option` field (absent/invalid ⇒ `none`), and serde defaults are applied in
the embedding exactly where the source applies them.  Fallible paths
(`Result` in Rust, including panics) become `Except String`.
-/

namespace Continuwuity

/-- A Matrix user identifier `@local:server`, split into its two parts. -/
structure UserIdM where
  localpart : String
  server : String
deriving DecidableEq, Repr

/-- A room identifier.  `server = none` models v12-style `!hash` room IDs,
whose `server_name()` accessor returns `None` in the source. -/
structure RoomIdM where
  idStr : String
  server : Option String
deriving DecidableEq, Repr

/-- Membership states of `m.room.member` events (`MembershipState`). -/
inductive MembershipM
  | join | invite | knock | leave | ban
deriving DecidableEq, Repr

/-- Join rules (`ruma::events::room::join_rules::JoinRule`).  `privateRule`
stands for the `Private`/custom variants that fall into the deny-all arm. -/
inductive JoinRuleM
  | public | invite | knock | restricted | knockRestricted | privateRule
deriving DecidableEq, Repr

/-- Event types, a closed set of the types the auth code dispatches on plus
an `other` case (`TimelineEventType` / `StateEventType`). -/
inductive EventTypeM
  | roomCreate | roomMember | roomPowerLevels | roomJoinRules | roomAliases
  | roomThirdPartyInvite | roomRedaction | other (s : String)
deriving DecidableEq, Repr

/-- The `signed` object of a third-party invite
(`ThirdPartyInvite { signed: { mxid, token, .. } }`). -/
structure TPInviteM where
  mxid : UserIdM
  token : String
deriving DecidableEq, Repr

/-- `m.room.power_levels` content (`RoomPowerLevelsEventContent`), after
serde deserialization: absent scalar fields already hold their defaults
(`ban/kick/redact/state_default = 50`, the rest `0`, `notifications.room =
50`), exactly as ruma's `#[serde(default)]` attributes produce. -/
structure PowerLevelsM where
  users : List (UserIdM × Int) := []
  users_default : Int := 0
  events : List (EventTypeM × Int) := []
  events_default : Int := 0
  state_default : Int := 50
  ban : Int := 50
  redact : Int := 50
  kick : Int := 50
  invite : Int := 0
  notifications_room : Int := 50
deriving DecidableEq, Repr

instance : Inhabited PowerLevelsM := ⟨{}⟩

/-- `m.room.third_party_invite` state-event content
(`RoomThirdPartyInviteEventContent`): the public keys a signed token is
checked against. -/
structure TPIStateM where
  public_keys : List String := []
  public_key : String
deriving DecidableEq, Repr

/-- The union of all content fields the auth code extracts from an event's
JSON content via the partial-view serde structs (`RoomMemberContentFields`,
`RoomCreateContentFields`, `GetMembership`, `GetThirdPartyInvite`,
`RoomJoinRulesEventContent`, `RoomPowerLevelsEventContent`).  A field is
`none` when absent from (or invalid in) the JSON. -/
structure ContentM where
  membership : Option MembershipM := none
  join_authorised_via_users_server : Option UserIdM := none
  third_party_invite : Option TPInviteM := none
  /-- create events: `some b` when `room_version` is present, `b` recording
  whether it deserializes to a recognized version. -/
  room_version_ok : Option Bool := none
  creator : Option UserIdM := none
  additional_creators : Option (List UserIdM) := none
  federate : Bool := true
  join_rule : JoinRuleM := JoinRuleM.invite
  power_levels : PowerLevelsM := {}
  third_party_invite_state : Option TPIStateM := none
deriving DecidableEq, Repr

/-- An event (`Pdu` viewed through the `Event` trait): the fields the auth
code reads.  Event identifiers are opaque strings. -/
structure EventM where
  event_id : String
  room_id : Option RoomIdM
  sender : UserIdM
  etype : EventTypeM
  state_key : Option String := none
  content : ContentM := {}
  prev_events : List String := []
  auth_events : List String := []
  redacts : Option String := none
deriving DecidableEq, Repr

/-- Room-version behaviour flags (`state_res::room_version::RoomVersion`),
the Room Version Table of the spec. -/
structure RoomVersion where
  room_ids_as_hashes : Bool := false
  use_room_create_sender : Bool := false
  explicitly_privilege_room_creators : Bool := false
  special_case_aliases_auth : Bool := false
  allow_knocking : Bool := true
  knock_restricted_join_rule : Bool := true
  extra_redaction_checks : Bool := false
  limit_notifications_power_levels : Bool := true
deriving DecidableEq, Repr

/-- Room version 6-style flags (used by the source's own tests). -/
def rvV6 : RoomVersion :=
  { room_ids_as_hashes := false, use_room_create_sender := false,
    explicitly_privilege_room_creators := false, special_case_aliases_auth := true,
    allow_knocking := false, knock_restricted_join_rule := false,
    extra_redaction_checks := false, limit_notifications_power_levels := true }

/-- Room version 11-style flags (modern, non-hash-addressed). -/
def rvV11 : RoomVersion :=
  { room_ids_as_hashes := false, use_room_create_sender := true,
    explicitly_privilege_room_creators := false, special_case_aliases_auth := false,
    allow_knocking := true, knock_restricted_join_rule := true,
    extra_redaction_checks := false, limit_notifications_power_levels := true }

/-- Room version 12-style flags (hash-addressed, explicit creators). -/
def rvV12 : RoomVersion :=
  { room_ids_as_hashes := true, use_room_create_sender := true,
    explicitly_privilege_room_creators := true, special_case_aliases_auth := false,
    allow_knocking := true, knock_restricted_join_rule := true,
    extra_redaction_checks := false, limit_notifications_power_levels := true }

/-- `js_int::Int::MAX`, the value the source assigns to room creators. -/
def intMax : Int := 9007199254740991

/-- `UserId::as_str()`: the textual form `@local:server`. -/
def UserIdM.str (u : UserIdM) : String :=
  "@" ++ u.localpart ++ ":" ++ u.server

/-- Association-list lookup, modelling `BTreeMap::get`. -/
def alookup {α β : Type} [DecidableEq α] (l : List (α × β)) (k : α) : Option β :=
  List.lookup k l

/-- The guarded push the source uses to build auth-type lists:
`if !auth_types.contains(&key) { auth_types.push(key) }`. -/
def pushUnique {α : Type} [DecidableEq α] (l : List α) (a : α) : List α :=
  if a ∈ l then l else l ++ [a]

/-- `StateEventType × StateKey` pair as produced by `auth_types_for_event`. -/
abbrev AuthTypePair := EventTypeM × String

/-- The base auth-type list (event_auth.rs:74-85): power levels and the
sender's membership, plus the create event in non-hash-addressed versions. -/
def authTypesBase (room_version : RoomVersion) (sender : UserIdM) :
    List AuthTypePair :=
  if room_version.room_ids_as_hashes then
    [(EventTypeM.roomPowerLevels, ""),
     (EventTypeM.roomMember, sender.str)]
  else
    [(EventTypeM.roomPowerLevels, ""),
     (EventTypeM.roomMember, sender.str),
     (EventTypeM.roomCreate, "")]

/-- `auth_types_for_event` (event_auth.rs:63): the relevant auth events
needed to authenticate an event of the given kind. -/
def auth_types_for_event (kind : EventTypeM) (sender : UserIdM)
    (state_key : Option String) (content : ContentM) (room_version : RoomVersion) :
    List AuthTypePair :=
  if kind = EventTypeM.roomCreate then []
  else
    let base : List AuthTypePair := authTypesBase room_version sender
    if kind = EventTypeM.roomMember then
      match state_key with
      | none => base
      | some sk =>
        match content.membership with
        | none => base
        | some membership =>
          let l1 :=
            if membership = MembershipM.join ∨ membership = MembershipM.invite
                ∨ membership = MembershipM.knock then
              let l := pushUnique base (EventTypeM.roomJoinRules, "")
              match content.join_authorised_via_users_server with
              | some u =>
                  pushUnique l (EventTypeM.roomMember, u.str)
              | none => l
            else base
          let l2 := pushUnique l1 (EventTypeM.roomMember, sk)
          if membership = MembershipM.invite then
            match content.third_party_invite with
            | some tpi => pushUnique l2 (EventTypeM.roomThirdPartyInvite, tpi.token)
            | none => l2
          else l2
    else base

/-- Rust's `Option<&Int>` strict order (`None < Some(_)`), used by
`target_power < sender_power` in the ban arm. -/
def optLtOpt : Option Int → Option Int → Bool
  | none, none => false
  | none, some _ => true
  | some _, none => false
  | some a, some b => a < b

/-- `o.filter(|&p| p >= v).is_some()`: the source's way of testing that an
optional power level is at least `v`. -/
def optGe (o : Option Int) (v : Int) : Bool :=
  match o with
  | some p => p ≥ v
  | none => false

/-- `content.get_user_power(u)` then `users_default` fallback, as the source
writes it out at each use site. -/
def getUserPower (pl : PowerLevelsM) (u : UserIdM) : Int :=
  match alookup pl.users u with
  | some level => level
  | none => pl.users_default

/-- `is_creator` (event_auth.rs:620).  The legacy branch unwraps the create
content's `creator` field and panics when it is absent; the panic is an
`error` here. -/
def is_creator (v : RoomVersion) (c : List UserIdM) (ce : EventM) (user_id : UserIdM)
    (have_pls : Bool) : Except String Bool :=
  if v.explicitly_privilege_room_creators then Except.ok (user_id ∈ c)
  else if v.use_room_create_sender ∧ ¬have_pls then Except.ok (ce.sender = user_id)
  else if ¬have_pls then
    match ce.content.creator with
    | some cr => Except.ok (cr = user_id)
    | none => Except.error "panicked: create event content has no creator"
  else Except.ok false

/-- `verify_third_party_invite` (event_auth.rs:1502).  The base64 decoding of
the signed token and the comparison against the invite event's public keys
are modelled as string equality on the token (no claim depends on the
encoding). -/
def verify_third_party_invite (target_user : Option UserIdM) (sender : UserIdM)
    (tp_id : TPInviteM) (current_third_party_invite : Option EventM) : Bool :=
  if target_user ≠ some tp_id.mxid then false
  else
    match current_third_party_invite with
    | none => false
    | some current_tpid =>
      if current_tpid.state_key ≠ some tp_id.token then false
      else if sender ≠ current_tpid.sender then false
      else
        match current_tpid.content.third_party_invite_state with
        | none => false
        | some tpid_ev =>
          tpid_ev.public_keys.any (fun k => k = tp_id.token)
            ∨ tpid_ev.public_key = tp_id.token

/-- Membership of an optional member event: `Leave` when the event is absent,
an error when the event exists but its content lacks the `membership` field
(`from_json_str::<GetMembership>` fails). -/
def memOf (ev : Option EventM) : Except String MembershipM :=
  match ev with
  | some p =>
    match p.content.membership with
    | some m => Except.ok m
    | none => Except.error "GetMembership: missing membership"
  | none => Except.ok MembershipM.leave

/-- The set of room creators as `valid_membership_change` builds it: always
the create event's sender, plus `additional_creators` in explicit-creator
versions. -/
def creatorsOf (rv : RoomVersion) (create_room : EventM) : List UserIdM :=
  create_room.sender ::
    (if rv.explicitly_privilege_room_creators then
      (create_room.content.additional_creators.getD [])
    else [])

/-- `valid_membership_change` (event_auth.rs:661): does the sender of this
member event have the required power to make the membership change. -/
def valid_membership_change (rv : RoomVersion) (target_user : UserIdM)
    (target_user_membership_event : Option EventM) (sender : UserIdM)
    (sender_membership_event : Option EventM) (current_event : EventM)
    (current_third_party_invite : Option EventM) (power_levels_event : Option EventM)
    (join_rules_event : Option EventM) (user_for_join_auth : Option UserIdM)
    (user_for_join_auth_membership : MembershipM) (create_room : EventM) :
    Except String Bool := do
  let target_membership ←
    match current_event.content.membership with
    | some m => Except.ok m
    | none => Except.error "GetMembership: missing membership"
  let third_party_invite := current_event.content.third_party_invite
  let sender_membership ← memOf sender_membership_event
  let sender_is_joined := sender_membership = MembershipM.join
  let target_user_current_membership ← memOf target_user_membership_event
  let power_levels : PowerLevelsM :=
    match power_levels_event with
    | some ev => ev.content.power_levels
    | none => {}
  let sender_power0 : Option Int :=
    (alookup power_levels.users sender).orElse
      (fun _ => if sender_is_joined then some power_levels.users_default else none)
  let target_power0 : Option Int :=
    (alookup power_levels.users target_user).orElse
      (fun _ => if target_membership = MembershipM.join then
          some power_levels.users_default else none)
  let creators := creatorsOf rv create_room
  let sender_power :=
    if rv.explicitly_privilege_room_creators ∧ sender ∈ creators then some intMax
    else sender_power0
  let target_power :=
    if rv.explicitly_privilege_room_creators ∧ target_user ∈ creators then some intMax
    else target_power0
  let join_rules : JoinRuleM :=
    match join_rules_event with
    | some jr => jr.content.join_rule
    | none => JoinRuleM.invite
  let have_pls := power_levels_event.isSome
  let user_for_join_auth_is_valid ←
    match user_for_join_auth with
    | some auth_user => do
      let auth_user_pl :=
        match power_levels_event with
        | some pl => getUserPower pl.content.power_levels auth_user
        | none => 0
      let invite_level :=
        match power_levels_event with
        | some pl => pl.content.power_levels.invite
        | none => 0
      let user_joined : Bool := user_for_join_auth_membership = MembershipM.join
      let cr ← is_creator rv creators create_room auth_user have_pls
      Except.ok (user_joined && (cr || decide (auth_user_pl ≥ invite_level)))
    | none => Except.ok false
  let sender_creator ← is_creator rv creators create_room sender have_pls
  let target_creator ← is_creator rv creators create_room target_user have_pls
  match target_membership with
  | MembershipM.join =>
    let prev_event_is_create_event :=
      current_event.prev_events.head? = some create_room.event_id
    let no_more_prev_events := current_event.prev_events.length ≤ 1
    if prev_event_is_create_event ∧ no_more_prev_events ∧ sender_creator ∧ target_creator
    then Except.ok true
    else
      let membership_allows_join : Bool :=
        target_user_current_membership = MembershipM.join
          ∨ target_user_current_membership = MembershipM.invite
      if sender ≠ target_user then Except.ok false
      else if target_user_current_membership = MembershipM.ban then Except.ok false
      else
        match join_rules with
        | JoinRuleM.invite => Except.ok membership_allows_join
        | JoinRuleM.knock =>
          if ¬rv.allow_knocking then Except.ok false
          else Except.ok membership_allows_join
        | JoinRuleM.knockRestricted =>
          if ¬rv.knock_restricted_join_rule then Except.ok false
          else Except.ok (membership_allows_join || user_for_join_auth_is_valid)
        | JoinRuleM.restricted =>
          Except.ok (membership_allows_join || user_for_join_auth_is_valid)
        | JoinRuleM.public => Except.ok true
        | JoinRuleM.privateRule => Except.ok false
  | MembershipM.invite =>
    match third_party_invite with
    | some tp_id =>
      if target_user_current_membership = MembershipM.ban then Except.ok false
      else Except.ok (verify_third_party_invite (some target_user) sender tp_id
        current_third_party_invite)
    | none =>
      if ¬sender_is_joined then Except.ok false
      else if target_user_current_membership = MembershipM.join
          ∨ target_user_current_membership = MembershipM.ban then Except.ok false
      else Except.ok (sender_creator || optGe sender_power power_levels.invite)
  | MembershipM.leave =>
    let can_unban : Bool :=
      if target_user_current_membership = MembershipM.ban then
        sender_creator || optGe sender_power power_levels.ban
      else true
    let can_kick : Bool :=
      if ¬(target_user_current_membership = MembershipM.ban
          ∨ target_user_current_membership = MembershipM.leave) then
        if sender_creator then true
        else if ¬optGe sender_power power_levels.kick then false
        else
          match sender_power with
          | some sp =>
            match target_power with
            | some tp => decide (sp > tp)
            | none => true
          | none => false
      else true
    if sender = target_user then
      Except.ok (decide (target_user_current_membership = MembershipM.join
        ∨ target_user_current_membership = MembershipM.invite
        ∨ target_user_current_membership = MembershipM.knock))
    else if ¬sender_is_joined then Except.ok false
    else if ¬(can_unban && can_kick) then Except.ok false
    else if ¬can_kick then Except.ok false
    else Except.ok true
  | MembershipM.ban =>
    if ¬sender_is_joined then Except.ok false
    else Except.ok (sender_creator
      || (optGe sender_power power_levels.ban && optLtOpt target_power sender_power))
  | MembershipM.knock =>
    if ¬rv.allow_knocking then Except.ok false
    else if ¬(join_rules = JoinRuleM.knockRestricted ∨ join_rules = JoinRuleM.knock)
    then Except.ok false
    else if join_rules = JoinRuleM.knockRestricted ∧ ¬rv.knock_restricted_join_rule
    then Except.ok false
    else if sender ≠ target_user then Except.ok false
    else if sender_membership = MembershipM.ban ∨ sender_membership = MembershipM.invite
        ∨ sender_membership = MembershipM.join then Except.ok false
    else Except.ok true

/-- Rust's `Option<&Int> > Some(&v)` (true only when the option holds a value
strictly greater than `v`; `None` is smaller than every `Some`). -/
def optGtVal (o : Option Int) (v : Int) : Bool :=
  match o with
  | some x => x > v
  | none => false

/-- `get_send_level` (event_auth.rs:1480): the power level needed to send an
event of this type. -/
def get_send_level (e_type : EventTypeM) (state_key : Option String)
    (power_lvl : Option EventM) : Int :=
  match power_lvl with
  | some ple =>
    match alookup ple.content.power_levels.events e_type with
    | some l => l
    | none =>
      if state_key.isSome then ple.content.power_levels.state_default
      else ple.content.power_levels.events_default
  | none => if state_key.isSome then 50 else 0

/-- `can_send_event` (event_auth.rs:1194). -/
def can_send_event (event : EventM) (ple : Option EventM) (user_level : Int) : Bool :=
  let event_type_power_level := get_send_level event.etype event.state_key ple
  if user_level < event_type_power_level then false
  else if (match event.state_key with
      | some k => k.startsWith "@" && k ≠ event.sender.str
      | none => false) then false
  else true

/-- The per-user step of `check_power_levels`' UserId loop (all of whose
failure arms return `Some(false)`). -/
def powerLevelUserOk (old_state new_state : PowerLevelsM) (sender : UserIdM)
    (user_level : Int) (creators : List UserIdM) (user : UserIdM) : Bool :=
  let old_level := alookup old_state.users user
  let new_level := alookup new_state.users user
  if new_level.isSome ∧ user ∈ creators then false
  else if old_level.isSome ∧ new_level.isSome ∧ old_level = new_level then true
  else if user ≠ sender ∧ old_level = some user_level then false
  else if optGtVal old_level user_level then false
  else if optGtVal new_level user_level then false
  else true

/-- The per-event-type step of `check_power_levels`' EventType loop. -/
def powerLevelEventOk (old_state new_state : PowerLevelsM) (user_level : Int)
    (ev_type : EventTypeM) : Bool :=
  let old_level := alookup old_state.events ev_type
  let new_level := alookup new_state.events ev_type
  if old_level.isSome ∧ new_level.isSome ∧ old_level = new_level then true
  else if optGtVal old_level user_level then false
  else if optGtVal new_level user_level then false
  else true

/-- The seven top-level scalar actions with their serde defaults.  ruma's
content serialization skips a scalar equal to its default, so
`get_deserialize_levels` sees a field exactly when its value differs from
the default. -/
def scalarLevels : List ((PowerLevelsM → Int) × Int) :=
  [(PowerLevelsM.users_default, 0), (PowerLevelsM.events_default, 0),
   (PowerLevelsM.state_default, 50), (PowerLevelsM.ban, 50),
   (PowerLevelsM.redact, 50), (PowerLevelsM.kick, 50), (PowerLevelsM.invite, 0)]

/-- One step of the scalar-action loop of `check_power_levels`:
`get_deserialize_levels` yields the pair only when the field appears in both
serialized contents. -/
def powerLevelScalarOk (old_state new_state : PowerLevelsM) (user_level : Int)
    (fd : (PowerLevelsM → Int) × Int) : Bool :=
  if fd.1 old_state ≠ fd.2 ∧ fd.1 new_state ≠ fd.2 then
    ¬(fd.1 old_state > user_level ∨ fd.1 new_state > user_level)
  else true

/-- `check_power_levels` (event_auth.rs:1227): may the sender replace the
room's power-levels event.  `none` models the source's `None` (malformed
argument), which the caller also treats as a rejection. -/
def check_power_levels (rv : RoomVersion) (power_event : EventM)
    (previous_power_event : Option EventM) (user_level : Int)
    (creators : List UserIdM) : Option Bool :=
  match power_event.state_key with
  | some "" =>
    let user_content := power_event.content.power_levels
    match previous_power_event with
    | none => some true
    | some current_state =>
      let current_content := current_state.content.power_levels
      let user_levels_to_check :=
        current_content.users.map Prod.fst ++ user_content.users.map Prod.fst
      let event_levels_to_check :=
        current_content.events.map Prod.fst ++ user_content.events.map Prod.fst
      if ¬user_levels_to_check.all
          (powerLevelUserOk current_content user_content power_event.sender
            user_level creators) then some false
      else if ¬event_levels_to_check.all
          (powerLevelEventOk current_content user_content user_level) then some false
      else if rv.limit_notifications_power_levels
          ∧ current_content.notifications_room ≠ user_content.notifications_room
          ∧ (current_content.notifications_room > user_level
            ∨ user_content.notifications_room > user_level) then some false
      else if ¬scalarLevels.all
          (powerLevelScalarOk current_content user_content user_level) then some false
      else some true
  | _ => none

/-- Split a character list at its first `:`, returning the parts before and
after it. -/
def splitFirstColon : List Char → Option (List Char × List Char)
  | [] => none
  | c :: rest =>
    if c = ':' then some ([], rest)
    else
      match splitFirstColon rest with
      | some (l, r) => some (c :: l, r)
      | none => none

/-- `EventId::server_name()`: present exactly when the identifier carries a
`:server` part (legacy event-id format). -/
def eventIdServer (id : String) : Option String :=
  match splitFirstColon id.data with
  | some (_, sv) => some ⟨sv⟩
  | none => none

/-- `check_redaction` (event_auth.rs:1452). -/
def check_redaction (redaction_event : EventM) (user_level redact_level : Int) :
    Except String Bool :=
  if user_level ≥ redact_level then Except.ok true
  else if eventIdServer redaction_event.event_id
      = (redaction_event.redacts.bind eventIdServer) then Except.ok true
  else Except.ok false

/-- `UserId::try_from` on a state key: shape-parse `@local:server`. -/
def parseUserId (s : String) : Option UserIdM :=
  match s.data with
  | '@' :: rest =>
    match splitFirstColon rest with
    | some (l, sv) =>
      if l ≠ [] ∧ sv ≠ [] then some ⟨⟨l⟩, ⟨sv⟩⟩ else none
    | none => none
  | _ => none

/-- Modelled from the spec: `room_ref` is "either a room identifier string
or, in hash-addressed versions, the create-event hash" — the accessor
`room_id_or_hash` of the `Event` trait (whose body is outside the provided
sources) returns the event's room id when present and otherwise the
hash-derived reference of the create event itself. -/
def room_id_or_hash (e : EventM) : RoomIdM :=
  match e.room_id with
  | some r => r
  | none => ⟨e.event_id, none⟩

/-- The `m.room.create` branch of `auth_check` (event_auth.rs:185-238). -/
def create_event_check (rv : RoomVersion) (e : EventM) : Bool :=
  let domOk : Bool :=
    match e.room_id with
    | none => true
    | some rid =>
      match rid.server with
      | none => false
      | some sn => decide (sn = e.sender.server)
  if ¬e.prev_events.isEmpty then false
  else if ¬domOk then false
  else if e.content.room_version_ok = some false then false
  else if rv.room_ids_as_hashes ∧ e.room_id.isSome then false
  else if ¬rv.use_room_create_sender ∧ ¬rv.explicitly_privilege_room_creators
      ∧ e.content.creator = none then false
  else true

/-- `auth_check` (event_auth.rs:157): authenticate the incoming event against
the fetched state, the create event and the room version. -/
def auth_check (rv : RoomVersion) (incoming_event : EventM)
    (current_third_party_invite : Option EventM)
    (fetch_state : EventTypeM → String → Option EventM)
    (create_event : EventM) : Except String Bool := do
  let sender := incoming_event.sender
  if incoming_event.etype = EventTypeM.roomCreate then
    Except.ok (create_event_check rv incoming_event)
  else do
    let power_levels_event := fetch_state EventTypeM.roomPowerLevels ""
    let sender_member_event := fetch_state EventTypeM.roomMember sender.str
    let room_create_event := create_event
    if room_create_event.content.room_version_ok = some false then Except.ok false
    else do
      let expected_room_id := room_id_or_hash room_create_event
      match incoming_event.room_id with
      | none => Except.error "panicked: event must have a room ID"
      | some rid =>
        if rid ≠ expected_room_id then Except.ok false
        else do
          let claims_create_event :=
            incoming_event.auth_events.any (fun id => id = room_create_event.event_id)
          if rv.room_ids_as_hashes ∧ claims_create_event then Except.ok false
          else if ¬rv.room_ids_as_hashes ∧ ¬claims_create_event then Except.ok false
          else do
            let plRoomOk ←
              match power_levels_event with
              | some pe =>
                match pe.room_id with
                | none => Except.error "panicked: power levels event has no room ID"
                | some prid => Except.ok (decide (prid = expected_room_id))
              | none => Except.ok true
            if ¬plRoomOk then Except.ok false
            else if ¬rv.room_ids_as_hashes ∧ ¬room_create_event.content.federate
                ∧ room_create_event.sender.server ≠ incoming_event.sender.server then
              Except.ok false
            else if rv.special_case_aliases_auth
                ∧ incoming_event.etype = EventTypeM.roomAliases then
              if incoming_event.state_key ≠ some sender.server then Except.ok false
              else Except.ok true
            else if incoming_event.etype = EventTypeM.roomMember then
              match incoming_event.state_key with
              | none => Except.ok false
              | some sk =>
                if incoming_event.content.membership = none then Except.ok false
                else
                  match parseUserId sk with
                  | none => Except.error "InvalidPdu: state key is not a user id"
                  | some target_user => do
                    let user_for_join_auth :=
                      incoming_event.content.join_authorised_via_users_server
                    let user_for_join_auth_event :=
                      user_for_join_auth.map
                        (fun u => fetch_state EventTypeM.roomMember u.str)
                    let target_user_member_event :=
                      fetch_state EventTypeM.roomMember target_user.str
                    let join_rules_event := fetch_state EventTypeM.roomJoinRules ""
                    let user_for_join_auth_membership :=
                      match user_for_join_auth_event with
                      | some (some mem) => mem.content.membership.getD MembershipM.leave
                      | _ => MembershipM.leave
                    let ok ← valid_membership_change rv target_user
                      target_user_member_event sender sender_member_event
                      incoming_event current_third_party_invite power_levels_event
                      join_rules_event user_for_join_auth
                      user_for_join_auth_membership room_create_event
                    if ¬ok then Except.ok false else Except.ok true
            else
              match sender_member_event with
              | none => Except.ok false
              | some sme =>
                match sme.room_id with
                | none => Except.error "panicked: we have a room ID for non create events"
                | some srid =>
                  if srid ≠ expected_room_id then Except.ok false
                  else
                    match sme.content.membership with
                    | none => Except.error "InvalidPdu: Missing membership field"
                    | some membership_state =>
                      if membership_state ≠ MembershipM.join then Except.ok false
                      else do
                        let base_power ←
                          match power_levels_event with
                          | some pl =>
                            Except.ok (getUserPower pl.content.power_levels sender)
                          | none => do
                            let is_cr ←
                              if rv.use_room_create_sender then
                                Except.ok (decide (room_create_event.sender = sender))
                              else
                                match room_create_event.content.creator with
                                | some cr => Except.ok (decide (cr = sender))
                                | none =>
                                  Except.error "panicked: create content creator unwrap"
                            Except.ok (if is_cr then (100 : Int) else 0)
                        let sender_power_level :=
                          if rv.explicitly_privilege_room_creators
                              ∧ (sender = room_create_event.sender
                                ∨ sender ∈ (room_create_event.content.additional_creators.getD []))
                          then intMax else base_power
                        if incoming_event.etype = EventTypeM.roomThirdPartyInvite then
                          let invite_level :=
                            match power_levels_event with
                            | some pl => pl.content.power_levels.invite
                            | none => 0
                          if sender_power_level < invite_level then Except.ok false
                          else Except.ok true
                        else if ¬can_send_event incoming_event power_levels_event
                            sender_power_level then Except.ok false
                        else do
                          let plPassed :=
                            if incoming_event.etype = EventTypeM.roomPowerLevels then
                              let creators : List UserIdM :=
                                if rv.explicitly_privilege_room_creators then
                                  create_event.sender ::
                                    (room_create_event.content.additional_creators.getD [])
                                else []
                              match check_power_levels rv incoming_event
                                  power_levels_event sender_power_level creators with
                              | some true => true
                              | some false => false
                              | none => false
                            else true
                          if ¬plPassed then Except.ok false
                          else if rv.extra_redaction_checks
                              ∧ incoming_event.etype = EventTypeM.roomRedaction then do
                            let redact_level :=
                              match power_levels_event with
                              | some pl => pl.content.power_levels.redact
                              | none => 50
                            let rOk ← check_redaction incoming_event
                              sender_power_level redact_level
                            if ¬rOk then Except.ok false else Except.ok true
                          else Except.ok true

/-! ## Join Coordinator: the make-join candidate loop (join.rs:800-883) -/

/-- The `ErrorKind`s the make-join loop dispatches on. -/
inductive ErrorKindM
  | unableToAuthorizeJoin | unableToGrantJoin | incompatibleRoomVersion
  | forbidden | notFound | otherKind
deriving DecidableEq, Repr

/-- What one candidate server does when asked for make-join. -/
inductive MakeJoinOutcome
  /-- `server_is_ours` → skipped. -/
  | ours
  /-- `Ok` response passing `validate_remote_member_event_stub`. -/
  | okValid
  /-- `Ok` response failing stub validation → continue. -/
  | okInvalid
  /-- `Ok` response whose event cannot be canonicalized:
  `to_canonical_object(..)?` propagates the error. -/
  | okCanonErr
  /-- `Err` of the given kind. -/
  | errKind (k : ErrorKindM)
deriving DecidableEq, Repr

/-- Errors `make_join_request` can return. -/
inductive MakeJoinError
  /-- `BadServerResponse("No server available to assist in joining.")`. -/
  | noServerAvailable
  /-- The peer's own error, propagated on a hard failure kind. -/
  | peer (server : String) (k : ErrorKindM)
  /-- Canonicalization failure propagated by `?`. -/
  | internalCanon (server : String)
deriving DecidableEq, Repr

/-- `make_join_request` (join.rs:800): walk the candidate servers in order;
return the first usable response.  The candidate list is paired with each
server's outcome (the response of `send_federation_request` plus stub
validation, which the source awaits per candidate). -/
def make_join_request : List (String × MakeJoinOutcome) → Except MakeJoinError String
  | [] => Except.error MakeJoinError.noServerAvailable
  | (s, o) :: rest =>
    match o with
    | MakeJoinOutcome.ours => make_join_request rest
    | MakeJoinOutcome.okValid => Except.ok s
    | MakeJoinOutcome.okInvalid => make_join_request rest
    | MakeJoinOutcome.okCanonErr => Except.error (MakeJoinError.internalCanon s)
    | MakeJoinOutcome.errKind k =>
      if k = ErrorKindM.incompatibleRoomVersion ∨ k = ErrorKindM.forbidden then
        Except.error (MakeJoinError.peer s k)
      else make_join_request rest

/-! ## UIA engine (service/uiaa/mod.rs) -/

/-- UIA stage types (`AuthType`). -/
inductive AuthTypeM
  | password | recaptcha | registrationToken | dummy | otherType
deriving DecidableEq, Repr

/-- One UIA flow: an ordered list of required stages. -/
structure FlowM where
  stages : List AuthTypeM
deriving DecidableEq, Repr

/-- `UiaaInfo`: the session state the engine threads through `try_auth`. -/
structure UiaaInfoM where
  flows : List FlowM
  completed : List AuthTypeM
  session : Option String
  auth_error : Option String
deriving DecidableEq, Repr

/-- `UserIdentifier` as the password stage reads it. -/
inductive UserIdentifierM
  | userIdOrLocalpart (s : String)
  | otherIdentifier
deriving DecidableEq, Repr

/-- Result of the outbound captcha verification call (an external I/O whose
outcome is an input of the model). -/
inductive CaptchaOutcome
  | success | failure | netError | parseError
deriving DecidableEq, Repr

/-- `AuthData`: the stage submission.  External verifier outcomes (password
hash check, captcha backend, token validity) are carried as model inputs. -/
inductive AuthDataM
  | password (identifier : Option UserIdentifierM) (password_ok : Bool)
  | reCaptcha (outcome : CaptchaOutcome)
  | registrationToken (valid : Bool)
  | dummy
  | fallbackAck
  | otherKind
deriving DecidableEq, Repr

/-- A stage submission with its optional session token (`auth.session()`). -/
structure AuthM where
  session : Option String
  data : AuthDataM
deriving DecidableEq, Repr

/-- The store effect `try_auth` performs on the session
(`update_uiaa_session` with `Some`, with `None`, or not called at all). -/
inductive SessionUpdate
  | keep
  | store (info : UiaaInfoM)
  | delete
deriving DecidableEq, Repr

/-- The flow-completion test of `try_auth` (uiaa/mod.rs:281-290): some flow
has all its stages in `completed`. -/
def uiaaFlowSat (info : UiaaInfoM) : Bool :=
  info.flows.any (fun f => f.stages.all (fun st => st ∈ info.completed))

/-- The tail of `try_auth` after the stage dispatch: check the flows, then
delete the session on success or re-store the updated info on failure. -/
def flowCheckStep (info : UiaaInfoM) : Except String (Bool × UiaaInfoM × SessionUpdate) :=
  if uiaaFlowSat info then Except.ok (true, info, SessionUpdate.delete)
  else Except.ok (false, info, SessionUpdate.store info)

/-- `UserId::parse_with_server_name`: a string starting with `@` is parsed as
a full user id, otherwise it is a localpart on the given server. -/
def parse_with_server_name (username : String) (server : String) : Option UserIdM :=
  match username.data with
  | '@' :: _ => parseUserId username
  | _ => some ⟨username, server⟩

/-- The stage-dispatch `match` of `try_auth` (uiaa/mod.rs:106-311): run the
submitted stage's verifier against `info0`, then the flow check.  External
verifier outcomes (password hash comparison, captcha backend, token
validity; the LDAP fallback is feature-gated out of the build) are carried
inside `data`.  Returns the verdict, the updated info, and the store effect
performed. -/
def uiaaDispatch (server_name : String) (authed_user : UserIdM)
    (turnstile_configured recaptcha_configured : Bool)
    (data : AuthDataM) (info0 : UiaaInfoM) :
    Except String (Bool × UiaaInfoM × SessionUpdate) :=
  match data with
  | AuthDataM.password identifier password_ok =>
    match identifier with
    | some (UserIdentifierM.userIdOrLocalpart username) =>
      match parse_with_server_name username server_name with
      | none => Except.error "User ID is invalid."
      | some uid =>
        if authed_user.localpart ≠ uid.localpart then
          Except.error "User ID and access token mismatch."
        else if ¬password_ok then
          Except.ok (false,
            { info0 with auth_error := some "Invalid username or password." },
            SessionUpdate.keep)
        else
          flowCheckStep { info0 with completed := info0.completed ++ [AuthTypeM.password] }
    | _ => Except.error "Identifier type not recognized."
  | AuthDataM.reCaptcha outcome =>
    if turnstile_configured then
      match outcome with
      | CaptchaOutcome.success =>
        flowCheckStep { info0 with completed := info0.completed ++ [AuthTypeM.recaptcha] }
      | CaptchaOutcome.failure => Except.ok (false,
          { info0 with auth_error := some "Turnstile verification failed." },
          SessionUpdate.keep)
      | CaptchaOutcome.netError => Except.error "Failed to verify Turnstile response."
      | CaptchaOutcome.parseError => Except.error "Failed to verify Turnstile response."
    else if recaptcha_configured then
      match outcome with
      | CaptchaOutcome.success =>
        flowCheckStep { info0 with completed := info0.completed ++ [AuthTypeM.recaptcha] }
      | _ => Except.ok (false,
          { info0 with auth_error := some "ReCaptcha verification failed." },
          SessionUpdate.keep)
    else Except.error "Captcha is not configured."
  | AuthDataM.registrationToken valid =>
    if valid then
      flowCheckStep { info0 with completed := info0.completed ++ [AuthTypeM.registrationToken] }
    else Except.ok (false,
      { info0 with auth_error := some "Invalid registration token." },
      SessionUpdate.keep)
  | AuthDataM.dummy =>
    flowCheckStep { info0 with completed := info0.completed ++ [AuthTypeM.dummy] }
  | AuthDataM.fallbackAck => Except.ok (false, info0, SessionUpdate.keep)
  | AuthDataM.otherKind => flowCheckStep info0

/-- `try_auth` (uiaa/mod.rs:89) as a whole: load or create the session info,
ensure it has a session token, then run the stage dispatch above. -/
def try_auth (server_name : String) (authed_user : UserIdM)
    (turnstile_configured recaptcha_configured : Bool)
    (get_session : String → Option UiaaInfoM) (fresh_session : String)
    (auth : AuthM) (uiaainfo_arg : UiaaInfoM) :
    Except String (Bool × UiaaInfoM × SessionUpdate) := do
  let loaded ←
    match auth.session with
    | some s =>
      match get_session s with
      | some i => Except.ok i
      | none => Except.error "UIAA session does not exist."
    | none => Except.ok uiaainfo_arg
  let info0 :=
    if loaded.session = none then { loaded with session := some fresh_session }
    else loaded
  uiaaDispatch server_name authed_user turnstile_configured recaptcha_configured
    auth.data info0

/-- The info `try_auth` starts from: the stored session when a token is
submitted, else the caller-provided one. -/
def uiaaLoaded (get_session : String → Option UiaaInfoM) (auth : AuthM)
    (uiaainfo_arg : UiaaInfoM) : Option UiaaInfoM :=
  match auth.session with
  | some s => get_session s
  | none => some uiaainfo_arg

/-! ## get_missing_events (api/server/get_missing_events.rs) -/

/-- The slice of a stored PDU this handler reads: its `prev_events` and
whether `to_canonical_object` succeeds on it. -/
structure PduM where
  prev_events : List String
  canonical_ok : Bool
deriving DecidableEq, Repr

/-- The `while` walk of `get_missing_events_route` (lines 48-100): scan the
queue from index `i`, collecting at most `limit` visible events and
enqueueing the `prev_events` of each collected one. -/
def missingEventsLoop (store : String → Option PduM) (visible : String → Bool)
    (earliest : List String) (limit : Nat) :
    List String → Nat → List String → List String := fun queued i events =>
  if h : i < queued.length ∧ events.length < limit then
    match store (queued.get ⟨i, h.1⟩) with
    | none => missingEventsLoop store visible earliest limit queued (i + 1) events
    | some pdu =>
      if queued.get ⟨i, h.1⟩ ∈ earliest then
        missingEventsLoop store visible earliest limit queued (i + 1) events
      else if ¬visible (queued.get ⟨i, h.1⟩) then
        missingEventsLoop store visible earliest limit queued (i + 1) events
      else if ¬pdu.canonical_ok then
        missingEventsLoop store visible earliest limit queued (i + 1) events
      else
        missingEventsLoop store visible earliest limit (queued ++ pdu.prev_events)
          (i + 1) (events ++ [queued.get ⟨i, h.1⟩])
  else events
termination_by queued i events => (limit - events.length, queued.length - i)

/-- `get_missing_events_route` (get_missing_events.rs:16): access checks,
then the bounded walk.  `limit_arg` is `body.limit.try_into()`: `none` when
the conversion fails, in which case the default 10 is used. -/
def get_missing_events_route (access_ok server_in_room : Bool)
    (store : String → Option PduM) (visible : String → Bool)
    (earliest latest : List String) (limit_arg : Option Nat) :
    Except String (List String) :=
  if ¬access_ok then Except.error "access check failed"
  else if ¬server_in_room then
    Except.error "This server is not participating in that room."
  else
    let limit := min (limit_arg.getD 10) 50
    Except.ok (missingEventsLoop store visible earliest limit latest 0 [])

/-! ## Concrete instances used by the claim theorems and witnesses -/

/-- `@a:s`. -/
def userA : UserIdM := ⟨"a", "s"⟩
/-- `@b:s`. -/
def userB : UserIdM := ⟨"b", "s"⟩
/-- `@b:t`. -/
def userBT : UserIdM := ⟨"b", "t"⟩
/-- `@c:s`. -/
def userC : UserIdM := ⟨"c", "s"⟩

/-- A v12-style create event by `@a:s` naming `@b:s` as additional creator. -/
def c1Create : EventM :=
  { event_id := "$create", room_id := none, sender := userA,
    etype := EventTypeM.roomCreate, state_key := some "",
    content := { additional_creators := some [userB] } }

/-- A join event sent by `@a:s` on behalf of `@b:s`, whose only prev event is
the create event. -/
def c1Join : EventM :=
  { event_id := "$join", room_id := some ⟨"$create", none⟩, sender := userA,
    etype := EventTypeM.roomMember, state_key := some "@b:s",
    content := { membership := some MembershipM.join },
    prev_events := ["$create"], auth_events := [] }

/-- A v12-style create event with `m.federate = false`. -/
def c2Create : EventM :=
  { event_id := "$create2", room_id := none, sender := userA,
    etype := EventTypeM.roomCreate, state_key := some "",
    content := { federate := false } }

/-- A message event from `@b:t`, a different server than the creator's. -/
def c2Msg : EventM :=
  { event_id := "$msg", room_id := some ⟨"$create2", none⟩, sender := userBT,
    etype := EventTypeM.other "m.room.message" }

/-- The join membership event of `@b:t` in the `c2Create` room. -/
def c2Member : EventM :=
  { event_id := "$mem", room_id := some ⟨"$create2", none⟩, sender := userBT,
    etype := EventTypeM.roomMember, state_key := some "@b:t",
    content := { membership := some MembershipM.join } }

/-- State fetcher for the `c2Create` room: only `@b:t`'s membership exists. -/
def c2Fetch : EventTypeM → String → Option EventM := fun t k =>
  if t = EventTypeM.roomMember ∧ k = "@b:t" then some c2Member else none

/-- A v11-style create event for room `!r:s`. -/
def c3Create : EventM :=
  { event_id := "$cr", room_id := some ⟨"!r", some "s"⟩, sender := userA,
    etype := EventTypeM.roomCreate, state_key := some "" }

/-- A message event referencing the create event in `auth_events`. -/
def c3Msg : EventM :=
  { event_id := "$m3", room_id := some ⟨"!r", some "s"⟩, sender := userA,
    etype := EventTypeM.other "m.room.message", auth_events := ["$cr"] }

/-- The join membership event of `@a:s` in room `!r:s`. -/
def c3Member : EventM :=
  { event_id := "$mem3", room_id := some ⟨"!r", some "s"⟩, sender := userA,
    etype := EventTypeM.roomMember, state_key := some "@a:s",
    content := { membership := some MembershipM.join } }

/-- State fetcher for room `!r:s`: only `@a:s`'s membership exists. -/
def c3Fetch : EventTypeM → String → Option EventM := fun t k =>
  if t = EventTypeM.roomMember ∧ k = "@a:s" then some c3Member else none

/-- A v11-style create event with `m.federate = false` for room `!rb:s`. -/
def c2bCreate : EventM :=
  { event_id := "$crb", room_id := some ⟨"!rb", some "s"⟩, sender := userA,
    etype := EventTypeM.roomCreate, state_key := some "",
    content := { federate := false } }

/-- A message event from `@b:t` in the non-federated room `!rb:s`. -/
def c2bMsg : EventM :=
  { event_id := "$mb", room_id := some ⟨"!rb", some "s"⟩, sender := userBT,
    etype := EventTypeM.other "m.room.message", auth_events := ["$crb"] }

/-- A well-formed v11 create event (no prev events, textual room id on the
sender's server). -/
def c4Ev : EventM :=
  { event_id := "$cr4", room_id := some ⟨"!r4", some "s"⟩, sender := userA,
    etype := EventTypeM.roomCreate, state_key := some "" }

/-- An existing power-levels event: `@a:s` and `@b:s` both at 50. -/
def c5Cur : EventM :=
  { event_id := "$pl0", room_id := some ⟨"!r", some "s"⟩, sender := userA,
    etype := EventTypeM.roomPowerLevels, state_key := some "",
    content := { power_levels := { users := [(userA, 50), (userB, 50)] } } }

/-- A proposed power-levels event by `@a:s` raising `@b:s` to 100. -/
def c5New : EventM :=
  { event_id := "$pl1", room_id := some ⟨"!r", some "s"⟩, sender := userA,
    etype := EventTypeM.roomPowerLevels, state_key := some "",
    content := { power_levels := { users := [(userA, 50), (userB, 100)] } } }

/-- Member content with `membership = ban` carrying
`join_authorised_via_users_server = @c:s`. -/
def c6Content : ContentM :=
  { membership := some MembershipM.ban,
    join_authorised_via_users_server := some userC }

/-- Member content with `membership = join` carrying
`join_authorised_via_users_server = @c:s`. -/
def c6JoinContent : ContentM :=
  { membership := some MembershipM.join,
    join_authorised_via_users_server := some userC }

/-- A UIA session whose single password flow is already completed. -/
def c8Arg : UiaaInfoM :=
  { flows := [⟨[AuthTypeM.password]⟩], completed := [AuthTypeM.password],
    session := some "sess", auth_error := none }

/-- A failing password submission for localpart `a` with no session token. -/
def c8FailingPassword : AuthM :=
  ⟨none, AuthDataM.password (some (UserIdentifierM.userIdOrLocalpart "a")) false⟩

/-- A correct password submission for localpart `b` (≠ token owner `a`). -/
def c10MismatchedPassword : AuthM :=
  ⟨none, AuthDataM.password (some (UserIdentifierM.userIdOrLocalpart "b")) true⟩

/-- A fresh empty UIA session with a dummy flow. -/
def c8Fresh : UiaaInfoM :=
  { flows := [⟨[AuthTypeM.dummy]⟩], completed := [], session := some "sess",
    auth_error := none }

/-- A three-event store: `A → B, C` and `B` with no parents. -/
def c9Store : String → Option PduM := fun id =>
  if id = "A" then some ⟨["B", "C"], true⟩
  else if id = "B" then some ⟨[], true⟩
  else none

/-- The acceptance condition for `m.room.create` events as the spec states
it (spec §4.2 "Create event"): no prev events; a textual room identifier's
server part equals the sender's server part; any `room_version` in the
content is recognized; hash-addressed versions carry no explicit room
reference; the `creator` field is present unless the version uses
sender-as-creator or the explicit-creators rule. -/
def createAcceptedSpec (rv : RoomVersion) (e : EventM) : Prop :=
  e.prev_events = []
  ∧ (∀ rid, e.room_id = some rid → rid.server = some e.sender.server)
  ∧ e.content.room_version_ok ≠ some false
  ∧ (rv.room_ids_as_hashes = true → e.room_id = none)
  ∧ (rv.use_room_create_sender = false → rv.explicitly_privilege_room_creators = false →
      e.content.creator ≠ none)

/-! ## Helper lemmas -/

/-- `do`-bind on a successful `Except` computation. -/
lemma exceptBind_ok {ε α β : Type} (a : α) (f : α → Except ε β) :
    (Except.ok a >>= f) = f a := rfl

/-- `do`-bind on a failed `Except` computation. -/
lemma exceptBind_error {ε α β : Type} (e : ε) (f : α → Except ε β) :
    ((Except.error e : Except ε α) >>= f) = Except.error e := rfl

/-- Exhausting the candidate list without a usable response or a hard error
yields the no-server-available error. -/
lemma make_join_exhaust : ∀ l : List (String × MakeJoinOutcome),
    (∀ p ∈ l, p.2 ≠ MakeJoinOutcome.okValid ∧ p.2 ≠ MakeJoinOutcome.okCanonErr
      ∧ p.2 ≠ MakeJoinOutcome.errKind ErrorKindM.incompatibleRoomVersion
      ∧ p.2 ≠ MakeJoinOutcome.errKind ErrorKindM.forbidden) →
    make_join_request l = Except.error MakeJoinError.noServerAvailable
  | [], _ => rfl
  | (s, o) :: tl, h => by
    have hh := h (s, o) (List.mem_cons_self _ _)
    have htl := fun p hp => h p (List.mem_cons_of_mem _ hp)
    cases o with
    | ours => simpa [make_join_request] using make_join_exhaust tl htl
    | okValid => exact absurd rfl hh.1
    | okInvalid => simpa [make_join_request] using make_join_exhaust tl htl
    | okCanonErr => exact absurd rfl hh.2.1
    | errKind k =>
      have hk1 : k ≠ ErrorKindM.incompatibleRoomVersion := by
        intro hk; exact hh.2.2.1 (by rw [hk])
      have hk2 : k ≠ ErrorKindM.forbidden := by
        intro hk; exact hh.2.2.2 (by rw [hk])
      simpa [make_join_request, hk1, hk2] using make_join_exhaust tl htl

/-- Invariant of the `get_missing_events` walk: the collected list never
exceeds the limit, and every collected event is outside `earliest_events`,
visible to the requesting server, and present in the store. -/
lemma missingEventsLoop_spec (store : String → Option PduM) (visible : String → Bool)
    (earliest : List String) (limit : Nat) :
    ∀ queued i events,
      events.length ≤ limit →
      (∀ id ∈ events, id ∉ earliest ∧ visible id = true ∧ (store id).isSome) →
      (missingEventsLoop store visible earliest limit queued i events).length ≤ limit
        ∧ ∀ id ∈ missingEventsLoop store visible earliest limit queued i events,
            id ∉ earliest ∧ visible id = true ∧ (store id).isSome := by
  intro queued i events
  induction queued, i, events using missingEventsLoop.induct store visible earliest limit with
  | case1 queued i events h hstore ih =>
    intro hlen hP
    rw [missingEventsLoop, dif_pos h, hstore]
    exact ih hlen hP
  | case2 queued i events h pdu hstore hearliest ih =>
    intro hlen hP
    rw [missingEventsLoop, dif_pos h, hstore]
    dsimp only
    rw [if_pos hearliest]
    exact ih hlen hP
  | case3 queued i events h pdu hstore hearliest hvis ih =>
    intro hlen hP
    rw [missingEventsLoop, dif_pos h, hstore]
    dsimp only
    rw [if_neg hearliest, if_pos hvis]
    exact ih hlen hP
  | case4 queued i events h pdu hstore hearliest hvis hcanon ih =>
    intro hlen hP
    rw [missingEventsLoop, dif_pos h, hstore]
    dsimp only
    rw [if_neg hearliest, if_neg hvis, if_pos hcanon]
    exact ih hlen hP
  | case5 queued i events h pdu hstore hearliest hvis hcanon ih =>
    intro hlen hP
    rw [missingEventsLoop, dif_pos h, hstore]
    dsimp only
    rw [if_neg hearliest, if_neg hvis, if_neg hcanon]
    refine ih ?_ ?_
    · simpa using h.2
    · intro x hx
      rcases List.mem_append.1 hx with hx | hx
      · exact hP x hx
      · rcases List.mem_singleton.1 hx with rfl
        refine ⟨?_, ?_, ?_⟩
        · intro hc; exact hearliest hc
        · by_contra hv
          exact hvis (by simpa using hv)
        · rw [hstore]; rfl
  | case6 queued i events h =>
    intro hlen hP
    rw [missingEventsLoop, dif_neg h]
    exact ⟨hlen, hP⟩

/-- A successful lookup means the key occurs among the keys. -/
lemma alookup_isSome_mem_keys {α β : Type} [DecidableEq α] :
    ∀ (l : List (α × β)) (k : α), (alookup l k).isSome → k ∈ l.map Prod.fst
  | [], k, h => by simp [alookup, List.lookup] at h
  | (a, b) :: tl, k, h => by
    by_cases hk : k = a
    · simp [hk]
    · have hbeq : (k == a) = false := by simpa using hk
      have htl : (alookup tl k).isSome := by
        unfold alookup at h ⊢
        simp only [List.lookup, hbeq] at h
        exact h
      have ih := alookup_isSome_mem_keys tl k htl
      simp only [List.map_cons, List.mem_cons]
      exact Or.inr ih

/-- A member mapped to `false` falsifies `List.all`. -/
lemma all_eq_false_of_mem {α : Type} {l : List α} {p : α → Bool} {x : α}
    (hx : x ∈ l) (hp : p x = false) : l.all p = false := by
  by_contra h
  have hall := List.all_eq_true.1 (by simpa using h)
  have := hall x hx
  rw [hp] at this
  exact Bool.false_ne_true this

/-- The per-user power-levels check fails whenever the user's level changes
and either side exceeds the sender's level. -/
lemma powerLevelUserOk_false_of_gt (oldc newc : PowerLevelsM) (sender : UserIdM)
    (ul : Int) (creators : List UserIdM) (u : UserIdM)
    (hch : ¬((alookup oldc.users u).isSome ∧ (alookup newc.users u).isSome
      ∧ alookup oldc.users u = alookup newc.users u))
    (hbad : optGtVal (alookup oldc.users u) ul = true
      ∨ optGtVal (alookup newc.users u) ul = true) :
    powerLevelUserOk oldc newc sender ul creators u = false := by
  unfold powerLevelUserOk
  by_cases h1 : (alookup newc.users u).isSome ∧ u ∈ creators
  · simp [h1]
  · rw [if_neg h1, if_neg hch]
    by_cases h2 : u ≠ sender ∧ alookup oldc.users u = some ul
    · simp [h2]
    · rw [if_neg h2]
      cases hOld : optGtVal (alookup oldc.users u) ul
      · cases hNew : optGtVal (alookup newc.users u) ul
        · exfalso
          rcases hbad with hb | hb
          · rw [hOld] at hb; exact Bool.false_ne_true hb
          · rw [hNew] at hb; exact Bool.false_ne_true hb
        · simp [hOld, hNew]
      · simp [hOld]

/-- The per-user power-levels check fails when the sender alters another
user whose current level equals the sender's own. -/
lemma powerLevelUserOk_false_of_eqOwn (oldc newc : PowerLevelsM) (sender : UserIdM)
    (ul : Int) (creators : List UserIdM) (u : UserIdM) (hne : u ≠ sender)
    (hold : alookup oldc.users u = some ul)
    (hch : ¬((alookup oldc.users u).isSome ∧ (alookup newc.users u).isSome
      ∧ alookup oldc.users u = alookup newc.users u)) :
    powerLevelUserOk oldc newc sender ul creators u = false := by
  unfold powerLevelUserOk
  by_cases h1 : (alookup newc.users u).isSome ∧ u ∈ creators
  · simp [h1]
  · rw [if_neg h1, if_neg hch, if_pos ⟨hne, hold⟩]

/-- The per-event-type power-levels check fails whenever the type's level
changes and either side exceeds the sender's level. -/
lemma powerLevelEventOk_false_of_gt (oldc newc : PowerLevelsM) (ul : Int)
    (t : EventTypeM)
    (hch : ¬((alookup oldc.events t).isSome ∧ (alookup newc.events t).isSome
      ∧ alookup oldc.events t = alookup newc.events t))
    (hbad : optGtVal (alookup oldc.events t) ul = true
      ∨ optGtVal (alookup newc.events t) ul = true) :
    powerLevelEventOk oldc newc ul t = false := by
  unfold powerLevelEventOk
  rw [if_neg hch]
  cases hOld : optGtVal (alookup oldc.events t) ul
  · cases hNew : optGtVal (alookup newc.events t) ul
    · exfalso
      rcases hbad with hb | hb
      · rw [hOld] at hb; exact Bool.false_ne_true hb
      · rw [hNew] at hb; exact Bool.false_ne_true hb
    · simp [hOld, hNew]
  · simp [hOld]

/-! ## Claim theorems -/

/-- Shape of the flow-check tail: the info is returned unchanged, success is
reported iff some flow is satisfied, the session is deleted exactly on
success and re-stored with the same info otherwise. -/
lemma flowCheckStep_spec (info : UiaaInfoM) (b : Bool) (i' : UiaaInfoM)
    (upd : SessionUpdate) (h : flowCheckStep info = Except.ok (b, i', upd)) :
    i' = info ∧ (b = true ↔ upd = SessionUpdate.delete)
    ∧ upd ≠ SessionUpdate.keep ∧ (b = true ↔ uiaaFlowSat info = true)
    ∧ (∀ j, upd = SessionUpdate.store j → j = info) := by
  unfold flowCheckStep at h
  by_cases hf : uiaaFlowSat info = true
  · rw [if_pos hf] at h
    obtain ⟨rfl, rfl, rfl⟩ : b = true ∧ info = i' ∧ SessionUpdate.delete = upd := by
      simpa using h
    simp [hf]
  · rw [if_neg hf] at h
    obtain ⟨rfl, rfl, rfl⟩ : b = false ∧ info = i'
        ∧ SessionUpdate.store info = upd := by
      simpa using h
    simp [hf]

/-- Every arm of the stage dispatch is an error, a keep-verdict that leaves
`completed` untouched, or the flow check run on `completed` extended by at
most one stage. -/
lemma uiaaDispatch_cases (sn : String) (au : UserIdM) (tc rc : Bool)
    (data : AuthDataM) (info0 : UiaaInfoM) :
    (∃ e, uiaaDispatch sn au tc rc data info0 = Except.error e)
    ∨ (∃ msg, uiaaDispatch sn au tc rc data info0
        = Except.ok (false, { info0 with auth_error := some msg },
            SessionUpdate.keep))
    ∨ uiaaDispatch sn au tc rc data info0
        = Except.ok (false, info0, SessionUpdate.keep)
    ∨ (∃ tail, uiaaDispatch sn au tc rc data info0
        = flowCheckStep { info0 with completed := info0.completed ++ tail }) := by
  cases data with
  | password identifier password_ok =>
    cases identifier with
    | none => exact Or.inl ⟨"Identifier type not recognized.", by simp [uiaaDispatch]⟩
    | some ident =>
      cases ident with
      | otherIdentifier =>
        exact Or.inl ⟨"Identifier type not recognized.", by simp [uiaaDispatch]⟩
      | userIdOrLocalpart username =>
        cases hp : parse_with_server_name username sn with
        | none => exact Or.inl ⟨"User ID is invalid.", by simp [uiaaDispatch, hp]⟩
        | some uid =>
          by_cases hloc : au.localpart ≠ uid.localpart
          · exact Or.inl ⟨"User ID and access token mismatch.",
              by simp [uiaaDispatch, hp, hloc]⟩
          · cases password_ok with
            | false =>
              exact Or.inr (Or.inl ⟨"Invalid username or password.",
                by simp [uiaaDispatch, hp, hloc]⟩)
            | true =>
              exact Or.inr (Or.inr (Or.inr
                ⟨[AuthTypeM.password], by simp [uiaaDispatch, hp, hloc]⟩))
  | reCaptcha outcome =>
    cases tc with
    | true =>
      cases outcome with
      | success =>
        exact Or.inr (Or.inr (Or.inr
          ⟨[AuthTypeM.recaptcha], by simp [uiaaDispatch]⟩))
      | failure =>
        exact Or.inr (Or.inl ⟨"Turnstile verification failed.",
          by simp [uiaaDispatch]⟩)
      | netError =>
        exact Or.inl ⟨"Failed to verify Turnstile response.", by simp [uiaaDispatch]⟩
      | parseError =>
        exact Or.inl ⟨"Failed to verify Turnstile response.", by simp [uiaaDispatch]⟩
    | false =>
      cases rc with
      | true =>
        cases outcome with
        | success =>
          exact Or.inr (Or.inr (Or.inr
            ⟨[AuthTypeM.recaptcha], by simp [uiaaDispatch]⟩))
        | failure =>
          exact Or.inr (Or.inl ⟨"ReCaptcha verification failed.",
            by simp [uiaaDispatch]⟩)
        | netError =>
          exact Or.inr (Or.inl ⟨"ReCaptcha verification failed.",
            by simp [uiaaDispatch]⟩)
        | parseError =>
          exact Or.inr (Or.inl ⟨"ReCaptcha verification failed.",
            by simp [uiaaDispatch]⟩)
      | false => exact Or.inl ⟨"Captcha is not configured.", by simp [uiaaDispatch]⟩
  | registrationToken valid =>
    cases valid with
    | true =>
      exact Or.inr (Or.inr (Or.inr
        ⟨[AuthTypeM.registrationToken], by simp [uiaaDispatch]⟩))
    | false =>
      exact Or.inr (Or.inl ⟨"Invalid registration token.", by simp [uiaaDispatch]⟩)
  | dummy =>
    exact Or.inr (Or.inr (Or.inr ⟨[AuthTypeM.dummy], by simp [uiaaDispatch]⟩))
  | fallbackAck => exact Or.inr (Or.inr (Or.inl (by simp [uiaaDispatch])))
  | otherKind =>
    exact Or.inr (Or.inr (Or.inr ⟨[], by simp [uiaaDispatch]⟩))

/-- Behaviour of the stage dispatch on every successful return: `completed`
only grows, the session is deleted exactly on success, whenever the flow
check runs (store or delete performed) the verdict matches flow
satisfaction, and any re-store stores the returned info. -/
lemma uiaaDispatch_spec (sn : String) (au : UserIdM) (tc rc : Bool)
    (data : AuthDataM) (info0 : UiaaInfoM) (b : Bool) (i' : UiaaInfoM)
    (upd : SessionUpdate)
    (h : uiaaDispatch sn au tc rc data info0 = Except.ok (b, i', upd)) :
    (∃ tail, i'.completed = info0.completed ++ tail)
    ∧ (b = true ↔ upd = SessionUpdate.delete)
    ∧ (upd ≠ SessionUpdate.keep → (b = true ↔ uiaaFlowSat i' = true))
    ∧ (∀ j, upd = SessionUpdate.store j → j = i') := by
  rcases uiaaDispatch_cases sn au tc rc data info0 with
    ⟨e, he⟩ | ⟨msg, he⟩ | he | ⟨tail, he⟩
  · rw [he] at h; exact absurd h (by simp)
  · rw [he] at h
    obtain ⟨rfl, rfl, rfl⟩ : b = false
        ∧ { info0 with auth_error := some msg } = i'
        ∧ SessionUpdate.keep = upd := by simpa using h
    refine ⟨⟨[], by simp⟩, by simp, by simp, by simp⟩
  · rw [he] at h
    obtain ⟨rfl, rfl, rfl⟩ : b = false ∧ info0 = i'
        ∧ SessionUpdate.keep = upd := by simpa using h
    refine ⟨⟨[], by simp⟩, by simp, by simp, by simp⟩
  · rw [he] at h
    obtain ⟨hi, hb, hkeep, hflow, hst⟩ := flowCheckStep_spec _ _ _ _ h
    subst hi
    exact ⟨⟨tail, by simp⟩, hb, fun _ => hflow, fun j hj => hst j hj⟩

/-- Membership in a `pushUnique` result. -/
lemma mem_pushUnique_iff {α : Type} [DecidableEq α] {l : List α} {a b : α} :
    b ∈ pushUnique l a ↔ b ∈ l ∨ b = a := by
  unfold pushUnique
  split
  · rename_i ha
    constructor
    · exact fun h => Or.inl h
    · rintro (h | rfl)
      · exact h
      · exact ha
  · simp [List.mem_append]

/-- The pushed element is a member. -/
lemma mem_pushUnique_self {α : Type} [DecidableEq α] (l : List α) (a : α) :
    a ∈ pushUnique l a :=
  mem_pushUnique_iff.2 (Or.inr rfl)

/-- Old members stay members. -/
lemma mem_pushUnique_of_mem {α : Type} [DecidableEq α] {l : List α} {b : α}
    (a : α) (h : b ∈ l) : b ∈ pushUnique l a :=
  mem_pushUnique_iff.2 (Or.inl h)

/-- `pushUnique` preserves duplicate-freeness. -/
lemma nodup_pushUnique {α : Type} [DecidableEq α] {l : List α} (a : α)
    (h : l.Nodup) : (pushUnique l a).Nodup := by
  unfold pushUnique
  split
  · exact h
  · rename_i ha
    simp [List.nodup_append, h, ha]

/-- `pushUnique` only appends, so it cannot shrink the list. -/
lemma le_length_pushUnique {α : Type} [DecidableEq α] (l : List α) (a : α) :
    l.length ≤ (pushUnique l a).length := by
  unfold pushUnique
  split
  · exact le_rfl
  · simp

/-- `pushUnique` leaves any prefix inside the original list unchanged. -/
lemma take_pushUnique {α : Type} [DecidableEq α] (l : List α) (a : α) {n : Nat}
    (h : n ≤ l.length) : (pushUnique l a).take n = l.take n := by
  unfold pushUnique
  split
  · rfl
  · exact List.take_append_of_le_length h

/-- The base list always holds at least the two leading entries. -/
lemma authTypesBase_len2 (rv : RoomVersion) (sender : UserIdM) :
    2 ≤ (authTypesBase rv sender).length := by
  unfold authTypesBase
  split <;> simp

/-- The base list begins with the power-levels and sender-membership keys. -/
lemma authTypesBase_take2 (rv : RoomVersion) (sender : UserIdM) :
    (authTypesBase rv sender).take 2
      = [(EventTypeM.roomPowerLevels, ""), (EventTypeM.roomMember, sender.str)] := by
  unfold authTypesBase
  split <;> rfl

/-- The base list is duplicate-free. -/
lemma authTypesBase_nodup (rv : RoomVersion) (sender : UserIdM) :
    (authTypesBase rv sender).Nodup := by
  unfold authTypesBase
  split <;> simp

/-- The create key sits in the base list exactly in non-hash-addressed
versions. -/
lemma mem_authTypesBase_create (rv : RoomVersion) (sender : UserIdM) :
    ((EventTypeM.roomCreate, "") ∈ authTypesBase rv sender)
      ↔ rv.room_ids_as_hashes = false := by
  unfold authTypesBase
  cases h : rv.room_ids_as_hashes <;> simp [h]

/-- Which member keys the base list holds. -/
lemma mem_authTypesBase_member (rv : RoomVersion) (sender : UserIdM) (x : String) :
    ((EventTypeM.roomMember, x) ∈ authTypesBase rv sender) ↔ x = sender.str := by
  unfold authTypesBase
  split <;> simp [Prod.ext_iff, eq_comm]

/-- An `optGtVal` success implies the option is populated. -/
lemma optGtVal_isSome {o : Option Int} {v : Int} (h : optGtVal o v = true) :
    o.isSome := by
  cases o <;> simp [optGtVal] at h ⊢

/-- C5: a proposed power-levels change against an existing power-levels
event is rejected whenever some per-user or per-event-type level that
changes has its old or new value strictly above the sender's level, or when
the sender alters another user whose old level equals the sender's own; and
with no previous power-levels event, a well-formed one is accepted. -/
theorem check_power_levels_change_rules (rv : RoomVersion) (pe cur : EventM)
    (ul : Int) (creators : List UserIdM) (u : UserIdM) (t : EventTypeM)
    (hsk : pe.state_key = some "") :
    (¬((alookup cur.content.power_levels.users u).isSome
        ∧ (alookup pe.content.power_levels.users u).isSome
        ∧ alookup cur.content.power_levels.users u
          = alookup pe.content.power_levels.users u) →
      (optGtVal (alookup cur.content.power_levels.users u) ul = true
        ∨ optGtVal (alookup pe.content.power_levels.users u) ul = true) →
      check_power_levels rv pe (some cur) ul creators = some false)
    ∧ (¬((alookup cur.content.power_levels.events t).isSome
        ∧ (alookup pe.content.power_levels.events t).isSome
        ∧ alookup cur.content.power_levels.events t
          = alookup pe.content.power_levels.events t) →
      (optGtVal (alookup cur.content.power_levels.events t) ul = true
        ∨ optGtVal (alookup pe.content.power_levels.events t) ul = true) →
      check_power_levels rv pe (some cur) ul creators = some false)
    ∧ (u ≠ pe.sender → alookup cur.content.power_levels.users u = some ul →
      ¬((alookup cur.content.power_levels.users u).isSome
        ∧ (alookup pe.content.power_levels.users u).isSome
        ∧ alookup cur.content.power_levels.users u
          = alookup pe.content.power_levels.users u) →
      check_power_levels rv pe (some cur) ul creators = some false)
    ∧ check_power_levels rv pe none ul creators = some true := by
  refine ⟨?_, ?_, ?_, ?_⟩
  · intro hch hbad
    have hmem : u ∈ (cur.content.power_levels.users.map Prod.fst
        ++ pe.content.power_levels.users.map Prod.fst) := by
      rcases hbad with hb | hb
      · exact List.mem_append_left _
          (alookup_isSome_mem_keys _ u (optGtVal_isSome hb))
      · exact List.mem_append_right _
          (alookup_isSome_mem_keys _ u (optGtVal_isSome hb))
    have hfalse := powerLevelUserOk_false_of_gt cur.content.power_levels
      pe.content.power_levels pe.sender ul creators u hch hbad
    have hall := all_eq_false_of_mem hmem hfalse
    simp [check_power_levels, hsk, hall]
  · intro hch hbad
    have hmem : t ∈ (cur.content.power_levels.events.map Prod.fst
        ++ pe.content.power_levels.events.map Prod.fst) := by
      rcases hbad with hb | hb
      · exact List.mem_append_left _
          (alookup_isSome_mem_keys _ t (optGtVal_isSome hb))
      · exact List.mem_append_right _
          (alookup_isSome_mem_keys _ t (optGtVal_isSome hb))
    have hfalse := powerLevelEventOk_false_of_gt cur.content.power_levels
      pe.content.power_levels ul t hch hbad
    have hall := all_eq_false_of_mem hmem hfalse
    cases husers : (cur.content.power_levels.users.map Prod.fst
        ++ pe.content.power_levels.users.map Prod.fst).all
        (powerLevelUserOk cur.content.power_levels pe.content.power_levels
          pe.sender ul creators) with
    | false => simp [check_power_levels, hsk, husers]
    | true => simp [check_power_levels, hsk, husers, hall]
  · intro hne hold hch
    have hmem : u ∈ (cur.content.power_levels.users.map Prod.fst
        ++ pe.content.power_levels.users.map Prod.fst) := by
      refine List.mem_append_left _ (alookup_isSome_mem_keys _ u ?_)
      rw [hold]; rfl
    have hfalse := powerLevelUserOk_false_of_eqOwn cur.content.power_levels
      pe.content.power_levels pe.sender ul creators u hne hold hch
    have hall := all_eq_false_of_mem hmem hfalse
    simp [check_power_levels, hsk, hall]
  · simp [check_power_levels, hsk]

/-- Witness for C5: `@a:s` raising `@b:s` from 50 to 100 with own level 50 is
rejected; the same event with no previous power-levels event is accepted. -/
theorem check_power_levels_change_rules_witness :
    check_power_levels rvV11 c5New (some c5Cur) 50 [] = some false
    ∧ check_power_levels rvV11 c5New none 50 [] = some true :=
  ⟨(check_power_levels_change_rules rvV11 c5New c5Cur 50 [] userB
      (EventTypeM.other "x") rfl).1 (by decide) (by decide),
   (check_power_levels_change_rules rvV11 c5New c5Cur 50 [] userB
      (EventTypeM.other "x") rfl).2.2.2⟩

/-- One `pushUnique` step preserves the two leading entries, the length
bound, duplicate-freeness, and any predicate satisfied by the pushed key. -/
lemma pushUnique_step (sender : UserIdM) (l : List AuthTypePair)
    (a : AuthTypePair) (hl : 2 ≤ l.length)
    (htake : l.take 2
      = [(EventTypeM.roomPowerLevels, ""), (EventTypeM.roomMember, sender.str)])
    (hnd : l.Nodup) :
    2 ≤ (pushUnique l a).length
    ∧ (pushUnique l a).take 2
      = [(EventTypeM.roomPowerLevels, ""), (EventTypeM.roomMember, sender.str)]
    ∧ (pushUnique l a).Nodup :=
  ⟨le_trans hl (le_length_pushUnique l a),
   by rw [take_pushUnique _ _ hl, htake],
   nodup_pushUnique a hnd⟩

/-- C6 (amended): the Auth Selector returns the empty list for
`m.room.create`; otherwise a list beginning with `(m.room.power_levels,"")`
and `(m.room.member, sender)`, with `(m.room.create,"")` present exactly in
non-hash-addressed versions; for member events with a valid membership it
appends `(m.room.join_rules,"")` when membership is join/invite/knock,
appends `(m.room.member,U)` when membership is join/invite/knock and the
content carries `join_authorised_via_users_server=U` (and only then — for
other memberships no such entry appears beyond the sender and target keys),
always appends `(m.room.member, state_key)`, and for invites with a
third-party token appends `(m.room.third_party_invite, token)`; duplicates
are suppressed. -/
theorem auth_types_for_event_rules (kind : EventTypeM) (sender : UserIdM)
    (state_key : Option String) (content : ContentM) (rv : RoomVersion)
    (sk : String) (m : MembershipM) (hk : kind ≠ EventTypeM.roomCreate) :
    auth_types_for_event EventTypeM.roomCreate sender state_key content rv = []
    ∧ (auth_types_for_event kind sender state_key content rv).take 2
      = [(EventTypeM.roomPowerLevels, ""), (EventTypeM.roomMember, sender.str)]
    ∧ (((EventTypeM.roomCreate, "")
        ∈ auth_types_for_event kind sender state_key content rv)
      ↔ rv.room_ids_as_hashes = false)
    ∧ (auth_types_for_event kind sender state_key content rv).Nodup
    ∧ (kind = EventTypeM.roomMember → state_key = some sk →
        content.membership = some m →
      ((EventTypeM.roomMember, sk)
          ∈ auth_types_for_event kind sender state_key content rv
      ∧ ((m = MembershipM.join ∨ m = MembershipM.invite ∨ m = MembershipM.knock) →
          ((EventTypeM.roomJoinRules, "")
              ∈ auth_types_for_event kind sender state_key content rv
          ∧ ∀ u, content.join_authorised_via_users_server = some u →
              (EventTypeM.roomMember, u.str)
                ∈ auth_types_for_event kind sender state_key content rv))
      ∧ (m = MembershipM.invite → ∀ t, content.third_party_invite = some t →
          (EventTypeM.roomThirdPartyInvite, t.token)
            ∈ auth_types_for_event kind sender state_key content rv)
      ∧ (¬(m = MembershipM.join ∨ m = MembershipM.invite ∨ m = MembershipM.knock) →
          ∀ u, content.join_authorised_via_users_server = some u →
            (((EventTypeM.roomMember, u.str)
                ∈ auth_types_for_event kind sender state_key content rv)
              ↔ (u.str = sender.str ∨ u.str = sk))))) := by
  by_cases hkm : kind = EventTypeM.roomMember
  · subst hkm
    cases hsk : state_key with
    | none =>
      refine ⟨by simp [auth_types_for_event], ?_, ?_, ?_, ?_⟩
      · simp only [auth_types_for_event, if_neg hk, if_pos rfl]
        exact authTypesBase_take2 rv sender
      · simp only [auth_types_for_event, if_neg hk, if_pos rfl]
        exact mem_authTypesBase_create rv sender
      · simp only [auth_types_for_event, if_neg hk, if_pos rfl]
        exact authTypesBase_nodup rv sender
      · intro _ habs
        exact absurd habs (by simp)
    | some sk0 =>
      cases hm : content.membership with
      | none =>
        refine ⟨by simp [auth_types_for_event], ?_, ?_, ?_, ?_⟩
        · simp only [auth_types_for_event, if_neg hk, if_pos rfl, hm]
          exact authTypesBase_take2 rv sender
        · simp only [auth_types_for_event, if_neg hk, if_pos rfl, hm]
          exact mem_authTypesBase_create rv sender
        · simp only [auth_types_for_event, if_neg hk, if_pos rfl, hm]
          exact authTypesBase_nodup rv sender
        · intro _ hsome hmem
          cases hsome
          exact absurd hmem (by simp)
      | some m0 =>
        -- reduce the selector to the pushUnique chain
        have hbase := And.intro (authTypesBase_len2 rv sender)
          (And.intro (authTypesBase_take2 rv sender) (authTypesBase_nodup rv sender))
        by_cases hjik : m0 = MembershipM.join ∨ m0 = MembershipM.invite
            ∨ m0 = MembershipM.knock
        · cases hja : content.join_authorised_via_users_server with
          | none =>
            have hr : auth_types_for_event EventTypeM.roomMember sender (some sk0)
                content rv
                = (if m0 = MembershipM.invite then
                    match content.third_party_invite with
                    | some tpi => pushUnique
                        (pushUnique
                          (pushUnique (authTypesBase rv sender)
                            (EventTypeM.roomJoinRules, ""))
                          (EventTypeM.roomMember, sk0))
                        (EventTypeM.roomThirdPartyInvite, tpi.token)
                    | none => pushUnique
                        (pushUnique (authTypesBase rv sender)
                          (EventTypeM.roomJoinRules, ""))
                        (EventTypeM.roomMember, sk0)
                  else pushUnique
                    (pushUnique (authTypesBase rv sender)
                      (EventTypeM.roomJoinRules, ""))
                    (EventTypeM.roomMember, sk0)) := by
              simp [auth_types_for_event, hk, hsk, hm, hjik, hja]
            have h1 := pushUnique_step sender _ (EventTypeM.roomJoinRules, "")
              hbase.1 hbase.2.1 hbase.2.2
            have h2 := pushUnique_step sender _ (EventTypeM.roomMember, sk0)
              h1.1 h1.2.1 h1.2.2
            have hl2nodup := h2.2.2
            have hl2take := h2.2.1
            have hl2len := h2.1
            refine ⟨by simp [auth_types_for_event], ?_, ?_, ?_, ?_⟩
            · rw [hr]
              split
              · cases htpi : content.third_party_invite with
                | none => exact hl2take
                | some tpi =>
                  exact (pushUnique_step sender _ _ hl2len hl2take hl2nodup).2.1
              · exact hl2take
            · rw [hr]
              have hbasecr := mem_authTypesBase_create rv sender
              split
              · cases htpi : content.third_party_invite with
                | none =>
                  rw [mem_pushUnique_iff, mem_pushUnique_iff]
                  simp [hbasecr]
                | some tpi =>
                  rw [mem_pushUnique_iff, mem_pushUnique_iff, mem_pushUnique_iff]
                  simp [hbasecr]
              · rw [mem_pushUnique_iff, mem_pushUnique_iff]
                simp [hbasecr]
            · rw [hr]
              split
              · cases htpi : content.third_party_invite with
                | none => exact hl2nodup
                | some tpi => exact nodup_pushUnique _ hl2nodup
              · exact hl2nodup
            · intro _ hsome hmem
              cases hsome
              cases hmem
              refine ⟨?_, ?_, ?_, ?_⟩
              · rw [hr]
                split
                · cases htpi : content.third_party_invite with
                  | none => exact mem_pushUnique_self _ _
                  | some tpi =>
                    exact mem_pushUnique_of_mem _ (mem_pushUnique_self _ _)
                · exact mem_pushUnique_self _ _
              · intro _
                refine ⟨?_, ?_⟩
                · rw [hr]
                  split
                  · cases htpi : content.third_party_invite with
                    | none =>
                      exact mem_pushUnique_of_mem _ (mem_pushUnique_self _ _)
                    | some tpi =>
                      exact mem_pushUnique_of_mem _
                        (mem_pushUnique_of_mem _ (mem_pushUnique_self _ _))
                  · exact mem_pushUnique_of_mem _ (mem_pushUnique_self _ _)
                · intro u hu
                  simp at hu
              · intro hinv t ht
                rw [hr, if_pos hinv, ht]
                exact mem_pushUnique_self _ _
              · intro habs
                exact absurd hjik habs
          | some u0 =>
            have hr : auth_types_for_event EventTypeM.roomMember sender (some sk0)
                content rv
                = (if m0 = MembershipM.invite then
                    match content.third_party_invite with
                    | some tpi => pushUnique
                        (pushUnique
                          (pushUnique
                            (pushUnique (authTypesBase rv sender)
                              (EventTypeM.roomJoinRules, ""))
                            (EventTypeM.roomMember, u0.str))
                          (EventTypeM.roomMember, sk0))
                        (EventTypeM.roomThirdPartyInvite, tpi.token)
                    | none => pushUnique
                        (pushUnique
                          (pushUnique (authTypesBase rv sender)
                            (EventTypeM.roomJoinRules, ""))
                          (EventTypeM.roomMember, u0.str))
                        (EventTypeM.roomMember, sk0)
                  else pushUnique
                    (pushUnique
                      (pushUnique (authTypesBase rv sender)
                        (EventTypeM.roomJoinRules, ""))
                      (EventTypeM.roomMember, u0.str))
                    (EventTypeM.roomMember, sk0)) := by
              simp [auth_types_for_event, hk, hsk, hm, hjik, hja]
            have h1 := pushUnique_step sender _ (EventTypeM.roomJoinRules, "")
              hbase.1 hbase.2.1 hbase.2.2
            have h1b := pushUnique_step sender _ (EventTypeM.roomMember, u0.str)
              h1.1 h1.2.1 h1.2.2
            have h2 := pushUnique_step sender _ (EventTypeM.roomMember, sk0)
              h1b.1 h1b.2.1 h1b.2.2
            refine ⟨by simp [auth_types_for_event], ?_, ?_, ?_, ?_⟩
            · rw [hr]
              split
              · cases htpi : content.third_party_invite with
                | none => exact h2.2.1
                | some tpi =>
                  exact (pushUnique_step sender _ _ h2.1 h2.2.1 h2.2.2).2.1
              · exact h2.2.1
            · rw [hr]
              have hbasecr := mem_authTypesBase_create rv sender
              split
              · cases htpi : content.third_party_invite with
                | none =>
                  rw [mem_pushUnique_iff, mem_pushUnique_iff, mem_pushUnique_iff]
                  simp [hbasecr]
                | some tpi =>
                  rw [mem_pushUnique_iff, mem_pushUnique_iff, mem_pushUnique_iff,
                    mem_pushUnique_iff]
                  simp [hbasecr]
              · rw [mem_pushUnique_iff, mem_pushUnique_iff, mem_pushUnique_iff]
                simp [hbasecr]
            · rw [hr]
              split
              · cases htpi : content.third_party_invite with
                | none => exact h2.2.2
                | some tpi => exact nodup_pushUnique _ h2.2.2
              · exact h2.2.2
            · intro _ hsome hmem
              cases hsome
              cases hmem
              refine ⟨?_, ?_, ?_, ?_⟩
              · rw [hr]
                split
                · cases htpi : content.third_party_invite with
                  | none => exact mem_pushUnique_self _ _
                  | some tpi =>
                    exact mem_pushUnique_of_mem _ (mem_pushUnique_self _ _)
                · exact mem_pushUnique_self _ _
              · intro _
                refine ⟨?_, ?_⟩
                · rw [hr]
                  split
                  · cases htpi : content.third_party_invite with
                    | none =>
                      exact mem_pushUnique_of_mem _ (mem_pushUnique_of_mem _
                        (mem_pushUnique_self _ _))
                    | some tpi =>
                      exact mem_pushUnique_of_mem _ (mem_pushUnique_of_mem _
                        (mem_pushUnique_of_mem _ (mem_pushUnique_self _ _)))
                  · exact mem_pushUnique_of_mem _ (mem_pushUnique_of_mem _
                      (mem_pushUnique_self _ _))
                · intro u hu
                  cases hu
                  rw [hr]
                  split
                  · cases htpi : content.third_party_invite with
                    | none =>
                      exact mem_pushUnique_of_mem _ (mem_pushUnique_self _ _)
                    | some tpi =>
                      exact mem_pushUnique_of_mem _
                        (mem_pushUnique_of_mem _ (mem_pushUnique_self _ _))
                  · exact mem_pushUnique_of_mem _ (mem_pushUnique_self _ _)
              · intro hinv t ht
                rw [hr, if_pos hinv, ht]
                exact mem_pushUnique_self _ _
              · intro habs
                exact absurd hjik habs
        · -- membership not join/invite/knock: only sender and target keys
          have hminv : m0 ≠ MembershipM.invite := fun h => hjik (Or.inr (Or.inl h))
          have hj : m0 ≠ MembershipM.join := fun h => hjik (Or.inl h)
          have hkn : m0 ≠ MembershipM.knock := fun h => hjik (Or.inr (Or.inr h))
          have hr : auth_types_for_event EventTypeM.roomMember sender (some sk0)
              content rv
              = pushUnique (authTypesBase rv sender) (EventTypeM.roomMember, sk0) := by
            simp [auth_types_for_event, hk, hsk, hm, hj, hminv, hkn]
          have h2 := pushUnique_step sender _ (EventTypeM.roomMember, sk0)
            hbase.1 hbase.2.1 hbase.2.2
          refine ⟨by simp [auth_types_for_event], ?_, ?_, ?_, ?_⟩
          · rw [hr]; exact h2.2.1
          · rw [hr, mem_pushUnique_iff]
            simp [mem_authTypesBase_create rv sender]
          · rw [hr]; exact h2.2.2
          · intro _ hsome hmem
            cases hsome
            cases hmem
            refine ⟨?_, ?_, ?_, ?_⟩
            · rw [hr]; exact mem_pushUnique_self _ _
            · intro h; exact absurd h hjik
            · intro h; exact absurd h hminv
            · intro _ u _
              rw [hr, mem_pushUnique_iff, mem_authTypesBase_member]
              simp [Prod.ext_iff]
  · -- not a member event: the selector returns the base list
    have hr : auth_types_for_event kind sender state_key content rv
        = authTypesBase rv sender := by
      simp only [auth_types_for_event, if_neg hk, if_neg hkm]
    refine ⟨by simp [auth_types_for_event], ?_, ?_, ?_, ?_⟩
    · rw [hr]; exact authTypesBase_take2 rv sender
    · rw [hr]; exact mem_authTypesBase_create rv sender
    · rw [hr]; exact authTypesBase_nodup rv sender
    · intro h; exact absurd h hkm

/-- Counterexample for C6 as stated: a member event with `membership = ban`
whose content carries `join_authorised_via_users_server = @c:s` does NOT get
`(m.room.member, @c:s)` appended — the source only appends it when the
membership is join, invite or knock. -/
theorem auth_types_for_event_counterexample :
    c6Content.join_authorised_via_users_server = some userC
    ∧ c6Content.membership = some MembershipM.ban
    ∧ ((EventTypeM.roomMember, userC.str)
      ∉ auth_types_for_event EventTypeM.roomMember userA (some "@b:s")
          c6Content rvV11) :=
  ⟨rfl, rfl, by decide⟩

/-- Witness for C6 (amended) on a join member event carrying an authorising
user. -/
theorem auth_types_for_event_rules_witness :
    ((EventTypeM.roomMember, "@b:s")
      ∈ auth_types_for_event EventTypeM.roomMember userA (some "@b:s")
          c6JoinContent rvV11)
    ∧ ((EventTypeM.roomMember, userC.str)
      ∈ auth_types_for_event EventTypeM.roomMember userA (some "@b:s")
          c6JoinContent rvV11)
    ∧ (auth_types_for_event EventTypeM.roomMember userA (some "@b:s")
          c6JoinContent rvV11).take 2
      = [(EventTypeM.roomPowerLevels, ""), (EventTypeM.roomMember, userA.str)]
    ∧ (auth_types_for_event EventTypeM.roomMember userA (some "@b:s")
          c6JoinContent rvV11).Nodup := by
  have h := auth_types_for_event_rules EventTypeM.roomMember userA (some "@b:s")
    c6JoinContent rvV11 "@b:s" MembershipM.join (by decide)
  have h5 := h.2.2.2.2 rfl rfl rfl
  exact ⟨h5.1, (h5.2.1 (Or.inl rfl)).2 userC rfl, h.2.1, h.2.2.2.1⟩

/-- The create-event branch of `auth_check` accepts exactly the spec's
conditions. -/
lemma create_event_check_iff (rv : RoomVersion) (e : EventM) :
    create_event_check rv e = true ↔ createAcceptedSpec rv e := by
  unfold create_event_check createAcceptedSpec
  constructor
  · intro h
    refine ⟨?_, ?_, ?_, ?_, ?_⟩
    · by_contra hne
      have hni : ¬e.prev_events.isEmpty = true := by
        simpa [List.isEmpty_iff] using hne
      simp [hni] at h
    · intro rid hrid
      by_contra hsv
      have hdom : (match e.room_id with
          | none => true
          | some rid =>
            match rid.server with
            | none => false
            | some sn => decide (sn = e.sender.server)) = false := by
        rw [hrid]
        show (match rid.server with
          | none => false
          | some sn => decide (sn = e.sender.server)) = false
        cases hs : rid.server with
        | none => rfl
        | some sn =>
          have hne2 : sn ≠ e.sender.server := fun hh => hsv (by rw [hs, hh])
          simp [hne2]
      simp [hdom] at h
    · by_contra hrv
      simp [not_not.1 (not_not.2 hrv)] at h
    · intro hh
      by_contra hne
      have hsome : e.room_id.isSome := Option.ne_none_iff_isSome.1 hne
      simp [hh, hsome] at h
    · intro hu he
      by_contra hc
      simp [hu, he, not_not.1 (not_not.2 hc)] at h
  · rintro ⟨h1, h2, h3, h4, h5⟩
    have hi : e.prev_events.isEmpty = true := by simp [h1]
    have hdom : (match e.room_id with
        | none => true
        | some rid =>
          match rid.server with
          | none => false
          | some sn => decide (sn = e.sender.server)) = true := by
      cases hrid : e.room_id with
      | none => rfl
      | some rid => simp [h2 rid hrid]
    have hA : ¬(rv.room_ids_as_hashes = true ∧ e.room_id.isSome = true) := by
      rintro ⟨ha, hb⟩
      rw [h4 ha] at hb
      exact absurd hb (by simp)
    have hB : ¬(¬rv.use_room_create_sender = true
        ∧ ¬rv.explicitly_privilege_room_creators = true
        ∧ e.content.creator = none) := by
      rintro ⟨ha, hb, hc⟩
      exact h5 (by simpa using ha) (by simpa using hb) hc
    have hC : rv.use_room_create_sender = true
        ∨ rv.explicitly_privilege_room_creators = true
        ∨ ¬e.content.creator = none := by
      by_cases hu : rv.use_room_create_sender = true
      · exact Or.inl hu
      · by_cases hex : rv.explicitly_privilege_room_creators = true
        · exact Or.inr (Or.inl hex)
        · exact Or.inr (Or.inr (h5 (by simpa using hu) (by simpa using hex)))
    simp [hi, hdom, h3, hA, hB, hC]

/-- C4: an `m.room.create` event is accepted by the Auth Checker iff it has
no prev events, any textual room identifier lies on the sender's server,
its `room_version` is recognized, its content has a `creator` unless the
version uses sender-as-creator or explicit creators, and hash-addressed
versions carry no explicit room reference.  In particular nonempty
`prev_events` is denied. -/
theorem auth_check_create_iff (rv : RoomVersion) (e : EventM)
    (tpi : Option EventM) (fs : EventTypeM → String → Option EventM)
    (ce : EventM) (hc : e.etype = EventTypeM.roomCreate) :
    auth_check rv e tpi fs ce = Except.ok true ↔ createAcceptedSpec rv e := by
  have hres : auth_check rv e tpi fs ce
      = Except.ok (create_event_check rv e) := by
    simp [auth_check, hc]
  rw [hres]
  rw [show (Except.ok (create_event_check rv e)
      = (Except.ok true : Except String Bool))
    ↔ create_event_check rv e = true from by simp]
  exact create_event_check_iff rv e

/-- Witness for C4 at a concrete well-formed v11 create event. -/
theorem auth_check_create_iff_witness :
    auth_check rvV11 c4Ev none (fun _ _ => none) c4Ev = Except.ok true
      ↔ createAcceptedSpec rvV11 c4Ev :=
  auth_check_create_iff rvV11 c4Ev none (fun _ _ => none) c4Ev rfl

/-- A non-create event accepted by `auth_check` has passed every check up to
and including the federation check: the create content's room version
parses, the room id matches, the create-reference-in-auth-events rule holds
in both directions, and the federation restriction did not fire. -/
lemma auth_check_prefix_conditions (rv : RoomVersion) (e : EventM)
    (tpi : Option EventM) (fs : EventTypeM → String → Option EventM) (ce : EventM)
    (hne : e.etype ≠ EventTypeM.roomCreate)
    (h : auth_check rv e tpi fs ce = Except.ok true) :
    ce.content.room_version_ok ≠ some false
    ∧ (∃ rid, e.room_id = some rid ∧ rid = room_id_or_hash ce)
    ∧ ¬(rv.room_ids_as_hashes = true
        ∧ (e.auth_events.any fun id => id = ce.event_id) = true)
    ∧ ¬(rv.room_ids_as_hashes = false
        ∧ (e.auth_events.any fun id => id = ce.event_id) = false)
    ∧ ¬(rv.room_ids_as_hashes = false ∧ ce.content.federate = false
        ∧ ce.sender.server ≠ e.sender.server) := by
  rw [auth_check, if_neg hne] at h
  dsimp only at h
  by_cases h1 : ce.content.room_version_ok = some false
  · rw [if_pos h1] at h
    exact absurd h (by simp)
  · rw [if_neg h1] at h
    cases hrid : e.room_id with
    | none =>
      rw [hrid] at h
      exact absurd h (by simp)
    | some rid =>
      rw [hrid] at h
      dsimp only at h
      by_cases h2 : rid ≠ room_id_or_hash ce
      · rw [if_pos h2] at h
        exact absurd h (by simp)
      · rw [if_neg h2] at h
        by_cases h3 : rv.room_ids_as_hashes = true
            ∧ (e.auth_events.any fun id => id = ce.event_id) = true
        · rw [if_pos h3] at h
          exact absurd h (by simp)
        · rw [if_neg h3] at h
          by_cases h4 : ¬rv.room_ids_as_hashes = true
              ∧ ¬(e.auth_events.any fun id => id = ce.event_id) = true
          · rw [if_pos h4] at h
            exact absurd h (by simp)
          · rw [if_neg h4] at h
            have tail : ∀ hcont :
                ¬(¬rv.room_ids_as_hashes = true ∧ ¬ce.content.federate = true
                  ∧ ce.sender.server ≠ e.sender.server),
                ce.content.room_version_ok ≠ some false
                ∧ (∃ rid, e.room_id = some rid ∧ rid = room_id_or_hash ce)
                ∧ ¬(rv.room_ids_as_hashes = true
                    ∧ (e.auth_events.any fun id => id = ce.event_id) = true)
                ∧ ¬(rv.room_ids_as_hashes = false
                    ∧ (e.auth_events.any fun id => id = ce.event_id) = false)
                ∧ ¬(rv.room_ids_as_hashes = false ∧ ce.content.federate = false
                    ∧ ce.sender.server ≠ e.sender.server) := by
              intro hcont
              refine ⟨h1, ⟨rid, hrid, not_not.1 h2⟩, ?_, ?_, ?_⟩
              · intro hc
                exact h3 hc
              · rintro ⟨ha, hb⟩
                exact h4 ⟨by simp [ha], by simp [hb]⟩
              · rintro ⟨ha, hb, hc⟩
                exact hcont ⟨by simp [ha], by simp [hb], hc⟩
            cases hpl : fs EventTypeM.roomPowerLevels "" with
            | none =>
              rw [hpl] at h
              dsimp only at h
              rw [exceptBind_ok] at h
              rw [if_neg (by simp)] at h
              by_cases h5 : ¬rv.room_ids_as_hashes = true ∧ ¬ce.content.federate = true
                  ∧ ce.sender.server ≠ e.sender.server
              · rw [if_pos h5] at h
                exact absurd h (by simp)
              · simpa [hrid] using tail h5
            | some pe =>
              rw [hpl] at h
              dsimp only at h
              cases hper : pe.room_id with
              | none =>
                rw [hper] at h
                dsimp only at h
                rw [exceptBind_error] at h
                exact absurd h (by simp)
              | some prid =>
                rw [hper] at h
                dsimp only at h
                rw [exceptBind_ok] at h
                by_cases h6 : prid = room_id_or_hash ce
                · rw [if_neg (by simp [h6])] at h
                  by_cases h5 : ¬rv.room_ids_as_hashes = true
                      ∧ ¬ce.content.federate = true
                      ∧ ce.sender.server ≠ e.sender.server
                  · rw [if_pos h5] at h
                    exact absurd h (by simp)
                  · simpa [hrid] using tail h5
                · rw [if_pos (by simp [h6])] at h
                  exact absurd h (by simp)

/-- Counterexample for C1 as stated: in an explicit-creators (v12-style)
room whose create event names `@b:s` as additional creator, the Auth
Checker accepts a membership-join event sent by `@a:s` on behalf of `@b:s`
through the bootstrap shortcut — the shortcut requires sender and target to
both be creators, not sender = target. -/
theorem valid_membership_join_counterexample :
    auth_check rvV12 c1Join none (fun _ _ => none) c1Create = Except.ok true
    ∧ c1Join.etype = EventTypeM.roomMember
    ∧ c1Join.content.membership = some MembershipM.join
    ∧ c1Join.state_key = some "@b:s"
    ∧ parseUserId "@b:s" = some userB
    ∧ c1Join.sender ≠ userB
    ∧ c1Join.prev_events = [c1Create.event_id] :=
  ⟨rfl, rfl, rfl, rfl, rfl, by decide, rfl⟩

/-- C1 (amended): a membership-join event is only ever allowed when the
sender equals the target, except through the bootstrap shortcut, which
requires the event's only prev event to be the create event and both sender
and target to be room creators (in explicit-creators versions these may be
distinct users). -/
theorem valid_membership_join_requires_self (rv : RoomVersion)
    (target_user : UserIdM) (tev : Option EventM) (sender : UserIdM)
    (sev : Option EventM) (cur : EventM) (tpi ple jre : Option EventM)
    (ufja : Option UserIdM) (ufjam : MembershipM) (create_room : EventM)
    (hmem : cur.content.membership = some MembershipM.join)
    (h : valid_membership_change rv target_user tev sender sev cur tpi ple jre
      ufja ufjam create_room = Except.ok true) :
    sender = target_user
    ∨ (cur.prev_events.head? = some create_room.event_id
      ∧ cur.prev_events.length ≤ 1
      ∧ is_creator rv (creatorsOf rv create_room) create_room sender ple.isSome
          = Except.ok true
      ∧ is_creator rv (creatorsOf rv create_room) create_room target_user
          ple.isSome = Except.ok true) := by
  rw [valid_membership_change.eq_def, hmem] at h
  dsimp only at h
  rw [exceptBind_ok] at h
  cases hsm : memOf sev with
  | error e0 =>
    rw [hsm] at h
    rw [exceptBind_error] at h
    exact absurd h (by simp)
  | ok sm =>
    rw [hsm] at h
    rw [exceptBind_ok] at h
    cases htm : memOf tev with
    | error e0 =>
      rw [htm] at h
      rw [exceptBind_error] at h
      exact absurd h (by simp)
    | ok tm =>
      rw [htm] at h
      rw [exceptBind_ok] at h
      cases hu : ufja with
      | none =>
        rw [hu] at h
        dsimp only at h
        rw [exceptBind_ok] at h
        cases hsc : is_creator rv (creatorsOf rv create_room) create_room sender
            ple.isSome with
        | error e0 =>
          rw [hsc] at h
          rw [exceptBind_error] at h
          exact absurd h (by simp)
        | ok sc =>
          rw [hsc] at h
          rw [exceptBind_ok] at h
          cases htc : is_creator rv (creatorsOf rv create_room) create_room
              target_user ple.isSome with
          | error e0 =>
            rw [htc] at h
            rw [exceptBind_error] at h
            exact absurd h (by simp)
          | ok tc =>
            rw [htc] at h
            rw [exceptBind_ok] at h
            by_cases hboot : cur.prev_events.head? = some create_room.event_id
                ∧ cur.prev_events.length ≤ 1 ∧ sc = true ∧ tc = true
            · exact Or.inr ⟨hboot.1, hboot.2.1,
                by rw [hboot.2.2.1], by rw [hboot.2.2.2]⟩
            · rw [if_neg hboot] at h
              by_cases hst : sender ≠ target_user
              · rw [if_pos hst] at h
                exact absurd h (by simp)
              · exact Or.inl (not_not.1 hst)
      | some au =>
        rw [hu] at h
        dsimp only at h
        cases hic : is_creator rv (creatorsOf rv create_room) create_room au
            ple.isSome with
        | error e0 =>
          rw [hic] at h
          simp only [exceptBind_error] at h
          exact absurd h (by simp)
        | ok cr =>
          rw [hic] at h
          simp only [exceptBind_ok] at h
          cases hsc : is_creator rv (creatorsOf rv create_room) create_room sender
              ple.isSome with
          | error e0 =>
            rw [hsc] at h
            rw [exceptBind_error] at h
            exact absurd h (by simp)
          | ok sc =>
            rw [hsc] at h
            rw [exceptBind_ok] at h
            cases htc : is_creator rv (creatorsOf rv create_room) create_room
                target_user ple.isSome with
            | error e0 =>
              rw [htc] at h
              rw [exceptBind_error] at h
              exact absurd h (by simp)
            | ok tc =>
              rw [htc] at h
              rw [exceptBind_ok] at h
              by_cases hboot : cur.prev_events.head? = some create_room.event_id
                  ∧ cur.prev_events.length ≤ 1 ∧ sc = true ∧ tc = true
              · exact Or.inr ⟨hboot.1, hboot.2.1,
                  by rw [hboot.2.2.1], by rw [hboot.2.2.2]⟩
              · rw [if_neg hboot] at h
                by_cases hst : sender ≠ target_user
                · rw [if_pos hst] at h
                  exact absurd h (by simp)
                · exact Or.inl (not_not.1 hst)

/-- Witness for C1 (amended): the concrete bootstrap join by `@a:s` on
behalf of co-creator `@b:s` lands in the bootstrap disjunct. -/
theorem valid_membership_join_requires_self_witness :
    userA = userB
    ∨ (c1Join.prev_events.head? = some c1Create.event_id
      ∧ c1Join.prev_events.length ≤ 1
      ∧ is_creator rvV12 (creatorsOf rvV12 c1Create) c1Create userA
          (none : Option EventM).isSome = Except.ok true
      ∧ is_creator rvV12 (creatorsOf rvV12 c1Create) c1Create userB
          (none : Option EventM).isSome = Except.ok true) :=
  valid_membership_join_requires_self rvV12 userB none userA none c1Join none
    none none none MembershipM.leave c1Create rfl rfl

/-- C2 (amended): in non-hash-addressed room versions, a non-create event
from a different server than the create event's sender is never accepted
when the create content sets `m.federate = false`.  (In hash-addressed
versions the source skips this check entirely.) -/
theorem auth_check_federate_nonhash_deny (rv : RoomVersion) (e : EventM)
    (tpi : Option EventM) (fs : EventTypeM → String → Option EventM)
    (ce : EventM) (hne : e.etype ≠ EventTypeM.roomCreate)
    (hhash : rv.room_ids_as_hashes = false)
    (hfed : ce.content.federate = false)
    (hsrv : ce.sender.server ≠ e.sender.server) :
    auth_check rv e tpi fs ce ≠ Except.ok true := by
  intro h
  obtain ⟨-, -, -, -, h5⟩ := auth_check_prefix_conditions rv e tpi fs ce hne h
  exact h5 ⟨hhash, hfed, hsrv⟩

/-- Counterexample for C2 as stated ("in every room version"): in a
hash-addressed (v12-style) room whose create content sets
`m.federate = false`, a message from a remote server is accepted. -/
theorem auth_check_federate_counterexample :
    auth_check rvV12 c2Msg none c2Fetch c2Create = Except.ok true
    ∧ c2Create.content.federate = false
    ∧ c2Create.sender.server ≠ c2Msg.sender.server
    ∧ c2Msg.etype ≠ EventTypeM.roomCreate
    ∧ rvV12.room_ids_as_hashes = true :=
  ⟨rfl, rfl, by decide, by decide, rfl⟩

/-- Witness for C2 (amended) in a concrete non-federated v11 room. -/
theorem auth_check_federate_nonhash_deny_witness :
    auth_check rvV11 c2bMsg none (fun _ _ => none) c2bCreate ≠ Except.ok true :=
  auth_check_federate_nonhash_deny rvV11 c2bMsg none (fun _ _ => none) c2bCreate
    (by decide) rfl rfl (by decide)

/-- C3: a non-create event is accepted only if it references the create
event in its `auth_events` exactly when the room version is not
hash-addressed. -/
theorem auth_check_create_ref_iff (rv : RoomVersion) (e : EventM)
    (tpi : Option EventM) (fs : EventTypeM → String → Option EventM)
    (ce : EventM) (hne : e.etype ≠ EventTypeM.roomCreate)
    (h : auth_check rv e tpi fs ce = Except.ok true) :
    ((e.auth_events.any fun id => id = ce.event_id) = true
      ↔ rv.room_ids_as_hashes = false) := by
  obtain ⟨-, -, h3, h4, -⟩ := auth_check_prefix_conditions rv e tpi fs ce hne h
  constructor
  · intro hcl
    cases hh : rv.room_ids_as_hashes with
    | false => rfl
    | true => exact absurd ⟨hh, hcl⟩ h3
  · intro hh
    cases hcl : (e.auth_events.any fun id => id = ce.event_id) with
    | false => exact absurd ⟨hh, hcl⟩ h4
    | true => rfl

/-- Witness for C3 at a concrete accepted v11 message event. -/
theorem auth_check_create_ref_iff_witness :
    ((c3Msg.auth_events.any fun id => id = c3Create.event_id) = true
      ↔ rvV11.room_ids_as_hashes = false) :=
  auth_check_create_ref_iff rvV11 c3Msg none c3Fetch c3Create (by decide) rfl

/-- C7: the make-join loop continues past soft error kinds
(`UnableToAuthorizeJoin`, `UnableToGrantJoin`, `NotFound`, anything
unlisted), aborts with the peer's error on `IncompatibleRoomVersion` or
`Forbidden`, and returns the no-server-available error when every candidate
has been tried without success. -/
theorem make_join_retry_policy (s : String) (k : ErrorKindM)
    (rest outcomes : List (String × MakeJoinOutcome)) :
    (k ≠ ErrorKindM.incompatibleRoomVersion → k ≠ ErrorKindM.forbidden →
      make_join_request ((s, MakeJoinOutcome.errKind k) :: rest)
        = make_join_request rest)
    ∧ ((k = ErrorKindM.incompatibleRoomVersion ∨ k = ErrorKindM.forbidden) →
      make_join_request ((s, MakeJoinOutcome.errKind k) :: rest)
        = Except.error (MakeJoinError.peer s k))
    ∧ ((∀ p ∈ outcomes, p.2 ≠ MakeJoinOutcome.okValid
          ∧ p.2 ≠ MakeJoinOutcome.okCanonErr
          ∧ p.2 ≠ MakeJoinOutcome.errKind ErrorKindM.incompatibleRoomVersion
          ∧ p.2 ≠ MakeJoinOutcome.errKind ErrorKindM.forbidden) →
      make_join_request outcomes = Except.error MakeJoinError.noServerAvailable) := by
  refine ⟨?_, ?_, make_join_exhaust outcomes⟩
  · intro h1 h2
    simp [make_join_request, h1, h2]
  · rintro (rfl | rfl) <;> simp [make_join_request]

/-- Witness for C7 at concrete candidate lists. -/
theorem make_join_retry_policy_witness :
    make_join_request [("p1", MakeJoinOutcome.errKind ErrorKindM.notFound),
        ("p2", MakeJoinOutcome.okValid)]
      = make_join_request [("p2", MakeJoinOutcome.okValid)]
    ∧ make_join_request [("p1", MakeJoinOutcome.errKind ErrorKindM.forbidden)]
      = Except.error (MakeJoinError.peer "p1" ErrorKindM.forbidden)
    ∧ make_join_request [("p1", MakeJoinOutcome.errKind ErrorKindM.notFound)]
      = Except.error MakeJoinError.noServerAvailable := by
  refine ⟨?_, ?_, ?_⟩
  · exact (make_join_retry_policy "p1" ErrorKindM.notFound
      [("p2", MakeJoinOutcome.okValid)] []).1 (by decide) (by decide)
  · exact (make_join_retry_policy "p1" ErrorKindM.forbidden [] []).2.1 (Or.inr rfl)
  · exact (make_join_retry_policy "p1" ErrorKindM.notFound []
      [("p1", MakeJoinOutcome.errKind ErrorKindM.notFound)]).2.2 (by decide)

/-- C8 (amended): every successful `try_auth` call only appends stages to
the loaded session's `completed` list; the session is deleted exactly when
success is reported; whenever the flow check runs (the call stores or
deletes, i.e. the submitted stage did not fail) success is reported exactly
when some flow's stages are all in the updated `completed`; and a re-store
stores the returned info.  (On a failed stage the call reports failure
without re-storing the session, even if some flow is already satisfied.) -/
theorem try_auth_session_flow (server_name : String) (authed_user : UserIdM)
    (tc rc : Bool) (get_session : String → Option UiaaInfoM) (fresh : String)
    (auth : AuthM) (arg : UiaaInfoM) (b : Bool) (i' : UiaaInfoM)
    (upd : SessionUpdate) (l : UiaaInfoM)
    (hres : try_auth server_name authed_user tc rc get_session fresh auth arg
      = Except.ok (b, i', upd))
    (hload : uiaaLoaded get_session auth arg = some l) :
    (∃ tail, i'.completed = l.completed ++ tail)
    ∧ (b = true ↔ upd = SessionUpdate.delete)
    ∧ (upd ≠ SessionUpdate.keep → (b = true ↔ uiaaFlowSat i' = true))
    ∧ (∀ j, upd = SessionUpdate.store j → j = i') := by
  have hdisp : uiaaDispatch server_name authed_user tc rc auth.data
      (if l.session = none then { l with session := some fresh } else l)
      = Except.ok (b, i', upd) := by
    cases hs : auth.session with
    | none =>
      simp only [uiaaLoaded, hs] at hload
      obtain rfl : arg = l := by simpa using hload
      simpa [try_auth, hs, exceptBind_ok] using hres
    | some s =>
      simp only [uiaaLoaded, hs] at hload
      simpa [try_auth, hs, hload, exceptBind_ok] using hres
  have hspec := uiaaDispatch_spec _ _ _ _ _ _ _ _ _ hdisp
  have hcomp : (if l.session = none then { l with session := some fresh }
      else l).completed = l.completed := by
    split <;> rfl
  rw [hcomp] at hspec
  exact hspec

/-- Counterexample for C8 as stated: a failed password stage reports failure
and performs no session store at all, even though a flow is already
satisfied by `completed` — the claim would require success and deletion
(or, failing, a re-store). -/
theorem try_auth_session_flow_counterexample :
    try_auth "s" userA false false (fun _ => none) "fresh" c8FailingPassword c8Arg
      = Except.ok (false,
          { c8Arg with auth_error := some "Invalid username or password." },
          SessionUpdate.keep)
    ∧ uiaaFlowSat
        { c8Arg with auth_error := some "Invalid username or password." } = true :=
  ⟨rfl, rfl⟩

/-- Witness for C8 (amended) at a concrete dummy-stage submission that
completes its flow. -/
theorem try_auth_session_flow_witness :
    (∃ tail, ({ c8Fresh with
        completed := c8Fresh.completed ++ [AuthTypeM.dummy] } : UiaaInfoM).completed
      = c8Fresh.completed ++ tail)
    ∧ (true = true ↔ SessionUpdate.delete = SessionUpdate.delete)
    ∧ (SessionUpdate.delete ≠ SessionUpdate.keep → (true = true ↔
        uiaaFlowSat { c8Fresh with
          completed := c8Fresh.completed ++ [AuthTypeM.dummy] } = true))
    ∧ (∀ j, SessionUpdate.delete = SessionUpdate.store j →
        j = { c8Fresh with completed := c8Fresh.completed ++ [AuthTypeM.dummy] }) :=
  try_auth_session_flow "s" userA false false (fun _ => none) "fresh"
    ⟨none, AuthDataM.dummy⟩ c8Fresh true
    { c8Fresh with completed := c8Fresh.completed ++ [AuthTypeM.dummy] }
    SessionUpdate.delete c8Fresh rfl rfl

/-- C10: a password-stage submission whose identifier's localpart differs
from the token-authenticated user's localpart makes `try_auth` return the
mismatch error (not a failed-stage verdict), so the password stage is never
appended to `completed`. -/
theorem try_auth_user_mismatch (server_name : String) (authed_user : UserIdM)
    (tc rc : Bool) (get_session : String → Option UiaaInfoM) (fresh : String)
    (auth : AuthM) (arg : UiaaInfoM) (username : String) (pwok : Bool)
    (uid : UserIdM) (l : UiaaInfoM)
    (hdata : auth.data
      = AuthDataM.password (some (UserIdentifierM.userIdOrLocalpart username)) pwok)
    (hload : uiaaLoaded get_session auth arg = some l)
    (hparse : parse_with_server_name username server_name = some uid)
    (hmm : authed_user.localpart ≠ uid.localpart) :
    try_auth server_name authed_user tc rc get_session fresh auth arg
      = Except.error "User ID and access token mismatch." := by
  cases hs : auth.session with
  | none =>
    simp only [uiaaLoaded, hs] at hload
    simp [try_auth, uiaaDispatch, hs, hdata, hparse, hmm, exceptBind_ok]
  | some s =>
    simp only [uiaaLoaded, hs] at hload
    simp [try_auth, uiaaDispatch, hs, hload, hdata, hparse, hmm, exceptBind_ok]

/-- Witness for C10 at a concrete submission. -/
theorem try_auth_user_mismatch_witness :
    try_auth "s" userA false false (fun _ => none) "fresh" c10MismatchedPassword c8Arg
      = Except.error "User ID and access token mismatch." :=
  try_auth_user_mismatch "s" userA false false (fun _ => none) "fresh"
    c10MismatchedPassword c8Arg "b" true userB c8Arg rfl rfl (by decide) (by decide)

/-- C9: `get_missing_events` returns at most `min(limit, 50)` events (10 when
no usable limit is given), and every returned event is outside
`earliest_events`, visible to the requesting server, and known locally. -/
theorem get_missing_events_bounds (access_ok server_in_room : Bool)
    (store : String → Option PduM) (visible : String → Bool)
    (earliest latest : List String) (limit_arg : Option Nat) (evs : List String)
    (h : get_missing_events_route access_ok server_in_room store visible earliest
      latest limit_arg = Except.ok evs) :
    evs.length ≤ min (limit_arg.getD 10) 50
    ∧ ∀ id ∈ evs, id ∉ earliest ∧ visible id = true ∧ (store id).isSome := by
  cases access_ok with
  | false => simp [get_missing_events_route] at h
  | true =>
    cases server_in_room with
    | false => simp [get_missing_events_route] at h
    | true =>
      simp only [get_missing_events_route, Bool.not_true, if_neg] at h
      rw [if_neg (by simp), if_neg (by simp)] at h
      have hev : evs = missingEventsLoop store visible earliest
          (min (limit_arg.getD 10) 50) latest 0 [] := by
        cases h; rfl
      subst hev
      exact missingEventsLoop_spec store visible earliest _ latest 0 []
        (by simp) (by simp)

/-- Witness for C9 at a concrete store and request. -/
theorem get_missing_events_bounds_witness :
    ([("A" : String), "B"].length ≤ min ((none : Option Nat).getD 10) 50)
    ∧ ∀ id ∈ [("A" : String), "B"], id ∉ ["C"] ∧ (fun _ : String => true) id = true
        ∧ (c9Store id).isSome :=
  get_missing_events_bounds true true c9Store (fun _ => true) ["C"] ["A"] none
    ["A", "B"] (by simp [get_missing_events_route, missingEventsLoop, c9Store])

end Continuwuity
